import Mathlib

/-!
# FocusPilot: the activity / distraction engine of `background.js`

A shallow embedding of the service worker `src/FocusPilot/background.js`.

* Numbers (`Date.now()` readings, durations, tab ids, counters) are `Int`.
* A JavaScript value that is either `null`/`undefined` or a string is an `Option String`.
* The module-level `state` object and the `sessions` key of `chrome.storage.local`
  are passed explicitly; every handler returns the state and store it leaves behind,
  the calls it made to `sendReminderToTab`, and whether its promise rejected.
* Results of the browser APIs a handler awaits (`chrome.tabs.get`, `chrome.storage.local`,
  `chrome.tabs.sendMessage`, `chrome.scripting.executeScript`) and the clock readings are
  inputs of the handler.
* `new URL(...)` is a platform function, not code of the repository: it is a parameter
  (`UrlParser`) that gives the hostname of a string that parses.
-/

namespace FocusPilot

/-! ## Configuration and data model -/

/-- The `config` object (`DEFAULT_CONFIG` merged with the stored configuration). -/
structure Config where
  idleThresholdSeconds : Int
  distractionSwitchThreshold : Int
  productiveDomains : List String
  reminderCooldownMs : Int
  deriving DecidableEq, Repr

/-- The constant `DEFAULT_CONFIG`. -/
def DEFAULT_CONFIG : Config :=
  ⟨60, 3, ["github.com", "wikipedia.org", "stackoverflow.com"], 60 * 1000⟩

/-- The constant `DISTRACTION_DOMAINS`. -/
def DISTRACTION_DOMAINS : List String :=
  ["facebook.com", "twitter.com", "instagram.com", "youtube.com", "reddit.com", "tiktok.com",
   "netflix.com", "discord.com", "pinterest.com", "roblox.com", "primevideo.com"]

/-- The module-level `state` object. -/
structure State where
  currentTabId : Option Int
  currentWindowId : Option Int
  currentUrl : Option String
  lastFocusTimestamp : Int
  lastReminderTimestamp : Int
  quickSwitchCount : Int
  deriving DecidableEq, Repr

/-- One element of the `sessions` array, as pushed by `recordFocusEvent`. -/
structure FocusRecord where
  timestamp : Int
  durationMs : Int
  productive : Bool
  deriving DecidableEq, Repr

/-! ## Platform functions -/

/-- The platform constructor `new URL(s)` restricted to what the code reads from it:
`hostname s = some h` when `s` parses as an absolute URL with hostname `h`, `none` when the
constructor throws.  The two facts recorded are those of the URL standard the code relies on:
the empty string and the string `"null"` are not absolute URLs. -/
structure UrlParser where
  hostname : String → Option String
  empty_fails : hostname "" = none
  null_fails : hostname "null" = none

/-- Conversion of the argument of `new URL(url)` to a string: `null` becomes `"null"`. -/
def urlArgument : Option String → String
  | none => "null"
  | some s => s

/-- The hostname of `new URL(url)`, or `none` when the constructor throws. -/
def newURL (P : UrlParser) (url : Option String) : Option String :=
  P.hostname (urlArgument url)

/-- JavaScript truthiness of a value that is `null` or a string. -/
def truthy : Option String → Bool
  | none => false
  | some s => decide (s ≠ "")

/-- The method `String.prototype.includes` on character lists: the search string starts at some
position of the receiver. -/
def includesChars (h d : List Char) : Bool :=
  h.tails.any (fun t => d.isPrefixOf t)

/-- The call `h.includes(d)`. -/
def includes (h d : String) : Bool :=
  includesChars h.data d.data

/-! ## Helpers of `background.js` -/

/-- The function `isProductiveUrl(url)`. -/
def isProductiveUrl (P : UrlParser) (config : Config) (url : Option String) : Bool :=
  match newURL P url with
  | some hostname => config.productiveDomains.any (fun d => includes hostname d)
  | none => false

/-- The function `isDistractionUrl(url)`. -/
def isDistractionUrl (P : UrlParser) (config : Config) (url : Option String) : Bool :=
  match newURL P url with
  | some hostname =>
    if config.productiveDomains.any (fun d => includes hostname d) then false
    else DISTRACTION_DOMAINS.any (fun d => includes hostname d)
  | none => false

/-! ## Reference definitions of the classifier, following the specification -/

/-- The string `d` occurs in `h` as a contiguous substring. -/
def IsSubstring (d h : String) : Prop :=
  d.data <:+: h.data

/-- Specification of `productive`: the URL parses and its hostname contains a configured
productive domain. -/
def SpecProductive (P : UrlParser) (config : Config) (url : Option String) : Prop :=
  ∃ hostname, newURL P url = some hostname ∧
    ∃ d ∈ config.productiveDomains, IsSubstring d hostname

/-- Specification of `distraction`: the URL parses, its hostname contains no productive domain
and contains a built-in distraction domain. -/
def SpecDistraction (P : UrlParser) (config : Config) (url : Option String) : Prop :=
  ∃ hostname, newURL P url = some hostname ∧
    (¬ ∃ d ∈ config.productiveDomains, IsSubstring d hostname) ∧
    ∃ d ∈ DISTRACTION_DOMAINS, IsSubstring d hostname

/-! ## Awaited browser calls -/

/-- Result of an awaited promise: it resolves with a value or rejects (the `await` throws). -/
inductive Await (α : Type) where
  | resolved (value : α)
  | rejected
  deriving DecidableEq, Repr

/-- Whether the two storage calls `read("sessions")` and `save("sessions", ...)` succeed. -/
structure StoreIO where
  readOk : Bool
  saveOk : Bool
  deriving DecidableEq, Repr

/-- What the browser answers to the calls made by `sendReminderToTab`: `chrome.tabs.get(tabId)`
(reduced to the `url` property of the tab, absent when `none`), `chrome.tabs.sendMessage` and
`chrome.scripting.executeScript`. -/
structure Delivery where
  tab : Await (Option String)
  sendMessageOk : Bool
  executeScriptOk : Bool
  deriving DecidableEq, Repr

/-- The inputs a handler receives from its surroundings while it runs: the tab returned by the
`chrome.tabs.get` call at the top of the activation listener, the storage outcomes, the value of
`now()` inside `recordFocusEvent`, and the answers to `sendReminderToTab`. -/
structure Env where
  tab : Await (Option String)
  store : StoreIO
  recordTs : Int
  delivery : Delivery
  deriving DecidableEq, Repr

/-- A browser call issued by `sendReminderToTab`. -/
inductive Call where
  | tabsGet (tabId : Int)
  | sendMessage (tabId : Int) (reason : String) (score : Int)
  | executeScript (tabId : Int) (text : String) (score : Int)
  deriving DecidableEq, Repr

/-- One invocation of `sendReminderToTab` by a handler, with its return value and the browser
calls it issued. -/
structure Reminder where
  tabId : Int
  reason : String
  score : Int
  delivered : Bool
  calls : List Call
  deriving DecidableEq, Repr

/-- The mutable surroundings of the handlers: `state` and the stored `sessions` value
(`none` when the key is absent). -/
structure World where
  state : State
  sessions : Option (List FocusRecord)
  deriving DecidableEq, Repr

/-- What a handler leaves behind: state, stored sessions, the reminders it sent, and whether an
exception escaped it. -/
structure Outcome where
  state : State
  sessions : Option (List FocusRecord)
  reminders : List Reminder
  rejected : Bool
  deriving DecidableEq, Repr

/-- The world a handler leaves behind. -/
def Outcome.world (o : Outcome) : World :=
  ⟨o.state, o.sessions⟩

/-! ## `recordFocusEvent` and `sendReminderToTab` -/

/-- The function `recordFocusEvent(deltaMs, wasProductive)`: reads `sessions` (an absent value
counts as `[]`), pushes one record and saves.  A failing read or save rejects and leaves the
stored value as it was. -/
def recordFocusEvent (io : StoreIO) (recordTs : Int) (stored : Option (List FocusRecord))
    (deltaMs : Int) (wasProductive : Bool) : Await (Option (List FocusRecord)) :=
  if io.readOk then
    let sessions := stored.getD [] ++ [⟨recordTs, deltaMs, wasProductive⟩]
    if io.saveOk then Await.resolved (some sessions) else Await.rejected
  else Await.rejected

/-- The first argument of the injected function in `sendReminderToTab`. -/
def inlineText (reason : String) : String :=
  if reason = "distraction-site" then "You\x27re on a distracting site. Refocus!"
  else if reason = "distraction" then "Rapid tab switching detected. Take a breath."
  else "Stay focused!"

/-- The delivery part of `sendReminderToTab` (after the guard): message first, injection when the
message throws. -/
def deliver (d : Delivery) (tabId : Int) (reason : String) (score : Int) : Bool × List Call :=
  if d.sendMessageOk then
    (true, [Call.tabsGet tabId, Call.sendMessage tabId reason score])
  else if d.executeScriptOk then
    (true, [Call.tabsGet tabId, Call.sendMessage tabId reason score,
            Call.executeScript tabId (inlineText reason) score])
  else
    (false, [Call.tabsGet tabId, Call.sendMessage tabId reason score,
             Call.executeScript tabId (inlineText reason) score])

/-- The function `sendReminderToTab(tabId, reason, score)`: its return value and the browser
calls it issues.  The guard reads `t?.url || ''`. -/
def sendReminderToTab (P : UrlParser) (config : Config) (d : Delivery) (tabId : Int)
    (reason : String) (score : Int) : Bool × List Call :=
  match d.tab with
  | Await.resolved url =>
    if isDistractionUrl P config (some (url.getD "")) then deliver d tabId reason score
    else (false, [Call.tabsGet tabId])
  | Await.rejected => deliver d tabId reason score

/-- The record a handler keeps of a call `sendReminderToTab(tabId, reason, score)`. -/
def remind (P : UrlParser) (config : Config) (d : Delivery) (tabId : Int)
    (reason : String) (score : Int) : Reminder :=
  ⟨tabId, reason, score, (sendReminderToTab P config d tabId reason score).1,
    (sendReminderToTab P config d tabId reason score).2⟩

/-! ## Listeners -/

/-- The block shared by the three activity listeners: `delta = nowTs - state.lastFocusTimestamp`,
and `recordFocusEvent(delta, isProductiveUrl(prevUrl))` when `delta > 0 && prevUrl`. -/
def closeOut (P : UrlParser) (config : Config) (env : Env) (st : State)
    (stored : Option (List FocusRecord)) (prevUrl : Option String) (nowTs : Int) :
    Await (Option (List FocusRecord)) :=
  let delta := nowTs - st.lastFocusTimestamp
  if delta > 0 ∧ truthy prevUrl = true then
    recordFocusEvent env.store env.recordTs stored delta (isProductiveUrl P config prevUrl)
  else Await.resolved stored

/-- The block "Instant nudge for distraction site" shared by the activation and update
listeners, run on the state `st` the listener has reached. -/
def instantNudge (P : UrlParser) (config : Config) (env : Env) (st : State)
    (stored : Option (List FocusRecord)) (tabId : Int) (url : Option String) (nowTs : Int) :
    Outcome :=
  if isDistractionUrl P config url then
    ⟨{ st with lastReminderTimestamp := nowTs, quickSwitchCount := 0 }, stored,
      [remind P config env.delivery tabId "distraction-site" 99], false⟩
  else ⟨st, stored, [], false⟩

/-- The block "update quick switch detection" of the activation listener. -/
def quickSwitch (prev : State) (tabId : Int) : State :=
  if prev.currentTabId ≠ none ∧ prev.currentTabId ≠ some tabId then
    { prev with quickSwitchCount := prev.quickSwitchCount + 1 }
  else prev

/-- The expression `tab?.url || null` of the activation listener. -/
def orNull (tabUrl : Option String) : Option String :=
  if truthy tabUrl then tabUrl else none

/-- The listener of `chrome.tabs.onActivated` for `activeInfo = {tabId, windowId}`, with `nowTs`
the value of `now()` it reads. -/
def onActivated (P : UrlParser) (config : Config) (env : Env) (w : World)
    (tabId windowId : Int) (nowTs : Int) : Outcome :=
  match env.tab with
  | Await.rejected => ⟨w.state, w.sessions, [], true⟩
  | Await.resolved tabUrl =>
    let url := orNull tabUrl
    let prev := w.state
    let s1 := quickSwitch prev tabId
    match closeOut P config env s1 w.sessions prev.currentUrl nowTs with
    | Await.rejected => ⟨s1, w.sessions, [], true⟩
    | Await.resolved stored =>
      instantNudge P config env
        { s1 with currentTabId := some tabId, currentWindowId := some windowId,
                  currentUrl := url, lastFocusTimestamp := nowTs }
        stored tabId url nowTs

/-- The listener of `chrome.tabs.onUpdated` for `(tabId, changeInfo, tab)`, reduced to
`changeInfo.url` and `tab.active`. -/
def onUpdated (P : UrlParser) (config : Config) (env : Env) (w : World)
    (tabId : Int) (changeUrl : Option String) (active : Bool) (nowTs : Int) : Outcome :=
  if active = true ∧ truthy changeUrl = true then
    match closeOut P config env w.state w.sessions w.state.currentUrl nowTs with
    | Await.rejected => ⟨w.state, w.sessions, [], true⟩
    | Await.resolved stored =>
      instantNudge P config env
        { w.state with currentUrl := changeUrl, lastFocusTimestamp := nowTs }
        stored tabId changeUrl nowTs
  else ⟨w.state, w.sessions, [], false⟩

/-- The listener of `chrome.idle.onStateChanged` for `newState`. -/
def onStateChanged (P : UrlParser) (config : Config) (env : Env) (w : World)
    (newState : String) (nowTs : Int) : Outcome :=
  if newState = "idle" ∨ newState = "locked" then
    match closeOut P config env w.state w.sessions w.state.currentUrl nowTs with
    | Await.rejected => ⟨w.state, w.sessions, [], true⟩
    | Await.resolved stored =>
      ⟨{ w.state with lastFocusTimestamp := nowTs }, stored, [], false⟩
  else if newState = "active" then
    ⟨{ w.state with quickSwitchCount := 0, lastFocusTimestamp := nowTs }, w.sessions, [], false⟩
  else ⟨w.state, w.sessions, [], false⟩

/-- The value `score` computed by the alarm listener from the sessions it read. -/
def assessScore (config : Config) (st : State) (sessions : List FocusRecord) (nowTs : Int) :
    Int :=
  let cutoff := nowTs - 2 * 60 * 1000
  let recent := sessions.filter (fun s => decide (s.timestamp ≥ cutoff))
  let shortEvents : Int := (recent.filter (fun s => decide (s.durationMs < 30 * 1000))).length
  let nonProd : Int := (recent.filter (fun s => !s.productive)).length
  let distractionScore := shortEvents + nonProd
  let quickSwitchSignal : Int :=
    if st.quickSwitchCount ≥ config.distractionSwitchThreshold then 1 else 0
  distractionScore + quickSwitchSignal

/-- The listener of `chrome.alarms.onAlarm` for an alarm called `name`. -/
def onAlarm (P : UrlParser) (config : Config) (env : Env) (w : World)
    (name : String) (nowTs : Int) : Outcome :=
  if name ≠ "assessFocus" then ⟨w.state, w.sessions, [], false⟩
  else if env.store.readOk = false then ⟨w.state, w.sessions, [], true⟩
  else
    let score := assessScore config w.state (w.sessions.getD []) nowTs
    let timeSinceLastReminder := nowTs - w.state.lastReminderTimestamp
    let shouldRemind : Bool :=
      decide (score ≥ 3) && decide (timeSinceLastReminder > config.reminderCooldownMs)
    match w.state.currentTabId with
    | some currentTabId =>
      if shouldRemind then
        let productive : Bool :=
          if truthy w.state.currentUrl then isProductiveUrl P config w.state.currentUrl
          else false
        if !productive then
          ⟨{ w.state with lastReminderTimestamp := nowTs, quickSwitchCount := 0 }, w.sessions,
            [remind P config env.delivery currentTabId "distraction" score], false⟩
        else ⟨w.state, w.sessions, [], false⟩
      else ⟨w.state, w.sessions, [], false⟩
    | none => ⟨w.state, w.sessions, [], false⟩

/-! ## Message API -/

/-- A value passed to `sendResponse`. -/
inductive Response where
  | stats (totalFocusedMs : Int) (distractionCount : Int) (samples : Int)
  | ok
  deriving DecidableEq, Repr

/-- The records the `GET_STATS` branch aggregates: those with `timestamp >= since`. -/
def relevantSessions (sessions : List FocusRecord) (nowTs : Int) : List FocusRecord :=
  let since := nowTs - 24 * 60 * 60 * 1000
  sessions.filter (fun s => decide (s.timestamp ≥ since))

/-- The `GET_STATS` branch of the message listener: the response sent (none when the read
throws) and the stored sessions afterwards. -/
def getStats (io : StoreIO) (stored : Option (List FocusRecord)) (nowTs : Int) :
    Option Response × Option (List FocusRecord) :=
  if io.readOk then
    let relevant := relevantSessions (stored.getD []) nowTs
    let totalFocusedMs : Int :=
      relevant.foldl (fun acc s => acc + (if s.productive then s.durationMs else 0)) 0
    let distractionCount : Int := (relevant.filter (fun s => !s.productive)).length
    (some (Response.stats totalFocusedMs distractionCount relevant.length), stored)
  else (none, stored)

/-- The `RESET_DATA` branch of the message listener. -/
def resetData (io : StoreIO) (stored : Option (List FocusRecord)) :
    Option Response × Option (List FocusRecord) :=
  if io.saveOk then (some Response.ok, some []) else (none, stored)

/-- The listener of `chrome.runtime.onMessage` for a message of the given `type`: the response
and the world afterwards.  `OPEN_POPUP` and `OPEN_OPTIONS` touch neither `state` nor
`sessions`. -/
def onMessage (io : StoreIO) (w : World) (type : String) (nowTs : Int) :
    Option Response × World :=
  if type = "GET_STATS" then
    ((getStats io w.sessions nowTs).1, ⟨w.state, (getStats io w.sessions nowTs).2⟩)
  else if type = "RESET_DATA" then
    ((resetData io w.sessions).1, ⟨w.state, (resetData io w.sessions).2⟩)
  else if type = "OPEN_POPUP" ∨ type = "OPEN_OPTIONS" then (some Response.ok, w)
  else (none, w)

/-! ## Sequences of events -/

/-- An event delivered to one of the listeners. -/
inductive Event where
  | activated (tabId windowId : Int)
  | updated (tabId : Int) (changeUrl : Option String) (active : Bool)
  | stateChanged (newState : String)
  | alarm (name : String)
  deriving DecidableEq, Repr

/-- An event together with the clock reading of its handler and the answers of the browser. -/
structure Occurrence where
  event : Event
  nowTs : Int
  env : Env
  deriving DecidableEq, Repr

/-- One listener run to completion. -/
def step (P : UrlParser) (config : Config) (w : World) (e : Occurrence) : Outcome :=
  match e.event with
  | Event.activated tabId windowId => onActivated P config e.env w tabId windowId e.nowTs
  | Event.updated tabId changeUrl active =>
    onUpdated P config e.env w tabId changeUrl active e.nowTs
  | Event.stateChanged newState => onStateChanged P config e.env w newState e.nowTs
  | Event.alarm name => onAlarm P config e.env w name e.nowTs

/-- Listeners run one after the other (serialized): the final world and, in order, the time and
record of every call to `sendReminderToTab`. -/
def run (P : UrlParser) (config : Config) : World → List Occurrence → World × List (Int × Reminder)
  | w, [] => (w, [])
  | w, e :: es =>
    let o := step P config w e
    let r := run P config o.world es
    (r.1, o.reminders.map (fun m => (e.nowTs, m)) ++ r.2)

/-! ## A concrete parser for the examples -/

/-- A finite table of results of `new URL(s).hostname`, used to run the model on concrete
URLs. -/
def sampleHostname (s : String) : Option String :=
  if s = "https://github.com/" then some "github.com"
  else if s = "https://www.reddit.com/" then some "www.reddit.com"
  else if s = "https://www.youtube.com/" then some "www.youtube.com"
  else if s = "https://example.org/" then some "example.org"
  else none

/-- The table `sampleHostname` as a `UrlParser`. -/
def sampleParser : UrlParser :=
  ⟨sampleHostname, by decide, by decide⟩

/-! ## Concrete inputs for the scenarios of the specification -/

/-- Scenario configuration: only `github.com` is productive, cooldown 60000 ms, threshold 3. -/
def scenarioConfig : Config :=
  ⟨60, 3, ["github.com"], 60000⟩

/-- A reachable tab showing `reddit.com`. -/
def redditTab : Await (Option String) :=
  Await.resolved (some "https://www.reddit.com/")

/-- Surroundings in which every browser call succeeds and the tab looked up shows
`reddit.com`; `recordFocusEvent` reads the clock at 10000. -/
def scenarioEnv : Env :=
  ⟨redditTab, ⟨true, true⟩, 10000, ⟨redditTab, true, true⟩⟩

/-- Tab 1 showing `github.com` has been tracked since time 0; the log is empty. -/
def scenarioWorld : World :=
  ⟨⟨some 1, some 1, some "https://github.com/", 0, 0, 0⟩, some []⟩

/-- Five short non-productive records (Scenario B). -/
def fiveShortRecords : List FocusRecord :=
  [⟨1000, 5000, false⟩, ⟨2000, 5000, false⟩, ⟨3000, 5000, false⟩, ⟨4000, 5000, false⟩,
   ⟨5000, 5000, false⟩]

/-- Tab 2 showing `url` is tracked, the last reminder was at time 0, no quick switches, and the
log holds the five records of Scenario B. -/
def patternWorld (url : String) : World :=
  ⟨⟨some 2, some 1, some url, 5000, 0, 0⟩, some fiveShortRecords⟩

/-- Surroundings in which the tab looked up shows `reddit.com` but neither the message nor the
injection reaches it. -/
def deadChannelsEnv : Env :=
  ⟨redditTab, ⟨true, true⟩, 10000, ⟨redditTab, false, false⟩⟩

/-- Surroundings in which every browser call succeeds and the tab looked up shows
`youtube.com`. -/
def youtubeEnv : Env :=
  ⟨Await.resolved (some "https://www.youtube.com/"), ⟨true, true⟩, 1001,
    ⟨Await.resolved (some "https://www.youtube.com/"), true, true⟩⟩

/-- Tab 1 showing `github.com` is tracked and two quick switches have been counted. -/
def switchingWorld : World :=
  ⟨⟨some 1, some 1, some "https://github.com/", 0, 0, 2⟩, some []⟩

/-- Two tab activations one millisecond apart, onto `reddit.com` and then `youtube.com`. -/
def twoActivations : List Occurrence :=
  [⟨Event.activated 2 1, 1000, scenarioEnv⟩, ⟨Event.activated 3 1, 1001, youtubeEnv⟩]

/-- Surroundings in which every browser call succeeds and the tab looked up shows the neutral
site `example.org`. -/
def neutralEnv : Env :=
  ⟨Await.resolved (some "https://example.org/"), ⟨true, true⟩, 10000,
    ⟨Await.resolved (some "https://example.org/"), true, true⟩⟩

/-- Surroundings in which `save("sessions", ...)` rejects and every other call succeeds. -/
def saveFailsEnv : Env :=
  ⟨redditTab, ⟨true, false⟩, 10000, ⟨redditTab, true, true⟩⟩

/-- A log with one productive record of 7000 ms and one non-productive record inside the last
24 hours of time 90000000, and one productive record before them. -/
def statsWorld : World :=
  ⟨⟨none, none, none, 0, 0, 0⟩,
    some [⟨1000, 4000, true⟩, ⟨50000000, 7000, true⟩, ⟨60000000, 2000, false⟩]⟩

/-! ## Reference definitions of the assessor and the statistics, following the specification -/

/-- Specification of the score: records of the last two minutes that are short, plus records of
the last two minutes that are non-productive, plus one when the quick-switch counter has reached
the threshold. -/
def SpecScore (config : Config) (st : State) (sessions : List FocusRecord) (nowTs : Int) : Int :=
  (sessions.countP (fun s => decide (s.timestamp ≥ nowTs - 120000 ∧ s.durationMs < 30000)) : Int)
  + (sessions.countP (fun s => decide (s.timestamp ≥ nowTs - 120000 ∧ s.productive = false)) : Int)
  + (if st.quickSwitchCount ≥ config.distractionSwitchThreshold then 1 else 0)

/-- Specification of the statistics window: the records with `timestamp ≥ now − 24 h`, in the
order of the log. -/
def SpecWindow (sessions : List FocusRecord) (nowTs : Int) : List FocusRecord :=
  sessions.filter (fun s => decide (s.timestamp ≥ nowTs - 86400000))

/-! ## Sequences of tracker events -/

/-- The occurrence is a tracker event that reaches the body of its listener with every storage
call succeeding: an activation whose tab lookup resolves, an update of the active tab that
carries a URL, or an idle-state change to `idle`, `locked` or `active`. -/
def isTrackerEvent (e : Occurrence) : Bool :=
  e.env.store.readOk && e.env.store.saveOk &&
  match e.event with
  | Event.activated _ _ =>
    (match e.env.tab with
     | Await.resolved _ => true
     | Await.rejected => false)
  | Event.updated _ changeUrl active => active && truthy changeUrl
  | Event.stateChanged newState =>
    decide (newState = "idle" ∨ newState = "locked" ∨ newState = "active")
  | Event.alarm _ => false

/-- The clock readings of the occurrences never decrease, starting from `t0`. -/
def nonDecreasingFrom (t0 : Int) : List Occurrence → Bool
  | [] => true
  | e :: es => decide (t0 ≤ e.nowTs) && nonDecreasingFrom e.nowTs es

/-- The clock reading of the last occurrence, or `t0` when there is none. -/
def lastTimestamp (t0 : Int) : List Occurrence → Int
  | [] => t0
  | e :: es => lastTimestamp e.nowTs es

/-- A switch to `reddit.com` at 10000, idle at 25000, back at 90000, and a navigation of the
active tab to `example.org` at 95000. -/
def sampleSession : List Occurrence :=
  [⟨Event.activated 2 1, 10000, scenarioEnv⟩,
   ⟨Event.stateChanged "idle", 25000, scenarioEnv⟩,
   ⟨Event.stateChanged "active", 90000, scenarioEnv⟩,
   ⟨Event.updated 2 (some "https://example.org/") true, 95000, neutralEnv⟩]

/-- Surroundings of an idle-state change at time `t`: every storage call succeeds and
`recordFocusEvent` reads the clock at `t`. -/
def idleEnv (t : Int) : Env :=
  ⟨redditTab, ⟨true, true⟩, t, ⟨redditTab, true, true⟩⟩

/-- The user goes idle at 25000 and the screen locks at 90000, with no return in between. -/
def idleThenLocked : List Occurrence :=
  [⟨Event.stateChanged "idle", 25000, idleEnv 25000⟩,
   ⟨Event.stateChanged "locked", 90000, idleEnv 90000⟩]

/-- The user goes idle at 25000 and the active tab navigates by itself to `example.org` at
90000, with no return in between. -/
def idleThenNavigation : List Occurrence :=
  [⟨Event.stateChanged "idle", 25000, idleEnv 25000⟩,
   ⟨Event.updated 1 (some "https://example.org/") true, 90000,
     ⟨Await.resolved (some "https://example.org/"), ⟨true, true⟩, 90000,
       ⟨Await.resolved (some "https://example.org/"), true, true⟩⟩⟩]

/-! ## Lemmas on `includes` -/

theorem includesChars_iff (h d : List Char) : includesChars h d = true ↔ d <:+: h := by
  unfold includesChars
  rw [List.any_eq_true]
  constructor
  · rintro ⟨t, ht, hp⟩
    have hsuf : t <:+ h := (List.mem_tails t h).1 ht
    have hpre : d <+: t := List.isPrefixOf_iff_prefix.1 hp
    exact hpre.isInfix.trans hsuf.isInfix
  · rintro ⟨s, t, rfl⟩
    refine ⟨d ++ t, ?_, ?_⟩
    · rw [List.mem_tails]
      exact ⟨s, by simp⟩
    · exact List.isPrefixOf_iff_prefix.2 (List.prefix_append d t)

theorem includes_iff (h d : String) : includes h d = true ↔ IsSubstring d h :=
  includesChars_iff h.data d.data

theorem any_includes_iff (ds : List String) (h : String) :
    ds.any (fun d => includes h d) = true ↔ ∃ d ∈ ds, IsSubstring d h := by
  rw [List.any_eq_true]
  constructor
  · rintro ⟨d, hd, hi⟩
    exact ⟨d, hd, (includes_iff h d).1 hi⟩
  · rintro ⟨d, hd, hi⟩
    exact ⟨d, hd, (includes_iff h d).2 hi⟩

theorem isProductiveUrl_iff (P : UrlParser) (config : Config) (url : Option String) :
    isProductiveUrl P config url = true ↔ SpecProductive P config url := by
  unfold isProductiveUrl SpecProductive
  cases hp : newURL P url with
  | none => simp
  | some hostname =>
    simp only [Option.some.injEq, exists_eq_left']
    exact any_includes_iff config.productiveDomains hostname

theorem isDistractionUrl_iff (P : UrlParser) (config : Config) (url : Option String) :
    isDistractionUrl P config url = true ↔ SpecDistraction P config url := by
  unfold isDistractionUrl SpecDistraction
  cases hp : newURL P url with
  | none => simp
  | some hostname =>
    by_cases hprod : config.productiveDomains.any (fun d => includes hostname d) = true
    · have h1 := (any_includes_iff config.productiveDomains hostname).1 hprod
      simp only [hprod, if_true]
      constructor
      · intro h; cases h
      · rintro ⟨h', heq, hno, _⟩
        cases heq
        exact absurd h1 hno
    · have h1 : ¬ ∃ d ∈ config.productiveDomains, IsSubstring d hostname :=
        fun h => hprod ((any_includes_iff config.productiveDomains hostname).2 h)
      have hprod' : config.productiveDomains.any (fun d => includes hostname d) = false := by
        simpa using hprod
      simp only [hprod', Bool.false_eq_true, if_false]
      rw [any_includes_iff]
      constructor
      · intro h
        exact ⟨hostname, rfl, h1, h⟩
      · rintro ⟨h', heq, _, hd⟩
        cases heq
        exact hd

theorem isProductiveUrl_null (P : UrlParser) (config : Config) :
    isProductiveUrl P config none = false := by
  simp [isProductiveUrl, newURL, urlArgument, P.null_fails]

theorem isDistractionUrl_null (P : UrlParser) (config : Config) :
    isDistractionUrl P config none = false := by
  simp [isDistractionUrl, newURL, urlArgument, P.null_fails]

theorem not_productive_of_distraction (P : UrlParser) (config : Config) (url : Option String)
    (h : isDistractionUrl P config url = true) : isProductiveUrl P config url = false := by
  unfold isDistractionUrl at h
  unfold isProductiveUrl
  cases hp : newURL P url with
  | none => rfl
  | some hostname =>
    rw [hp] at h
    by_cases hprod : config.productiveDomains.any (fun d => includes hostname d) = true
    · simp [hprod] at h
    · simpa using hprod

/-! ## Lemmas on the close-out block -/

theorem closeOut_of_store_ok (P : UrlParser) (config : Config) (env : Env) (st : State)
    (stored : Option (List FocusRecord)) (prevUrl : Option String) (nowTs : Int)
    (hr : env.store.readOk = true) (hs : env.store.saveOk = true) :
    closeOut P config env st stored prevUrl nowTs =
      Await.resolved
        (if nowTs - st.lastFocusTimestamp > 0 ∧ truthy prevUrl = true then
          some (stored.getD [] ++
            [⟨env.recordTs, nowTs - st.lastFocusTimestamp, isProductiveUrl P config prevUrl⟩])
        else stored) := by
  unfold closeOut recordFocusEvent
  dsimp only
  by_cases hc : nowTs - st.lastFocusTimestamp > 0 ∧ truthy prevUrl = true
  · rw [if_pos hc, if_pos hc, if_pos hr, if_pos hs]
  · rw [if_neg hc, if_neg hc]

theorem closeOut_of_not_due (P : UrlParser) (config : Config) (env : Env) (st : State)
    (stored : Option (List FocusRecord)) (prevUrl : Option String) (nowTs : Int)
    (hc : ¬ (nowTs - st.lastFocusTimestamp > 0 ∧ truthy prevUrl = true)) :
    closeOut P config env st stored prevUrl nowTs = Await.resolved stored := by
  unfold closeOut
  dsimp only
  rw [if_neg hc]

theorem closeOut_of_store_fails (P : UrlParser) (config : Config) (env : Env) (st : State)
    (stored : Option (List FocusRecord)) (prevUrl : Option String) (nowTs : Int)
    (hc : nowTs - st.lastFocusTimestamp > 0 ∧ truthy prevUrl = true)
    (hf : env.store.readOk = false ∨ env.store.saveOk = false) :
    closeOut P config env st stored prevUrl nowTs = Await.rejected := by
  unfold closeOut recordFocusEvent
  dsimp only
  rw [if_pos hc]
  rcases hf with hf | hf
  · simp [hf]
  · by_cases hr : env.store.readOk = true
    · simp [hf, hr]
    · simp [hr]

theorem instantNudge_sessions (P : UrlParser) (config : Config) (env : Env) (st : State)
    (stored : Option (List FocusRecord)) (tabId : Int) (url : Option String) (nowTs : Int) :
    (instantNudge P config env st stored tabId url nowTs).sessions = stored := by
  unfold instantNudge
  split <;> rfl

theorem instantNudge_rejected (P : UrlParser) (config : Config) (env : Env) (st : State)
    (stored : Option (List FocusRecord)) (tabId : Int) (url : Option String) (nowTs : Int) :
    (instantNudge P config env st stored tabId url nowTs).rejected = false := by
  unfold instantNudge
  split <;> rfl

theorem instantNudge_reminders (P : UrlParser) (config : Config) (env : Env) (st : State)
    (stored : Option (List FocusRecord)) (tabId : Int) (url : Option String) (nowTs : Int) :
    (instantNudge P config env st stored tabId url nowTs).reminders =
      if isDistractionUrl P config url = true then
        [remind P config env.delivery tabId "distraction-site" 99]
      else [] := by
  unfold instantNudge
  split <;> rfl

theorem instantNudge_state (P : UrlParser) (config : Config) (env : Env) (st : State)
    (stored : Option (List FocusRecord)) (tabId : Int) (url : Option String) (nowTs : Int) :
    (instantNudge P config env st stored tabId url nowTs).state =
      if isDistractionUrl P config url = true then
        { st with lastReminderTimestamp := nowTs, quickSwitchCount := 0 }
      else st := by
  unfold instantNudge
  split <;> rfl

theorem quickSwitch_lastFocusTimestamp (st : State) (tabId : Int) :
    (quickSwitch st tabId).lastFocusTimestamp = st.lastFocusTimestamp := by
  unfold quickSwitch
  split <;> rfl

theorem quickSwitch_lastReminderTimestamp (st : State) (tabId : Int) :
    (quickSwitch st tabId).lastReminderTimestamp = st.lastReminderTimestamp := by
  unfold quickSwitch
  split <;> rfl

theorem onActivated_of_closeOut (P : UrlParser) (config : Config) (env : Env) (w : World)
    (tabId windowId : Int) (nowTs : Int) (tabUrl : Option String)
    (stored : Option (List FocusRecord)) (htab : env.tab = Await.resolved tabUrl)
    (hclose : closeOut P config env (quickSwitch w.state tabId) w.sessions w.state.currentUrl
      nowTs = Await.resolved stored) :
    onActivated P config env w tabId windowId nowTs =
      instantNudge P config env
        { quickSwitch w.state tabId with
            currentTabId := some tabId, currentWindowId := some windowId,
            currentUrl := orNull tabUrl, lastFocusTimestamp := nowTs }
        stored tabId (orNull tabUrl) nowTs := by
  unfold onActivated
  rw [htab]
  dsimp only
  rw [hclose]

theorem onActivated_of_closeOut_rejected (P : UrlParser) (config : Config) (env : Env)
    (w : World) (tabId windowId : Int) (nowTs : Int) (tabUrl : Option String)
    (htab : env.tab = Await.resolved tabUrl)
    (hclose : closeOut P config env (quickSwitch w.state tabId) w.sessions w.state.currentUrl
      nowTs = Await.rejected) :
    onActivated P config env w tabId windowId nowTs =
      ⟨quickSwitch w.state tabId, w.sessions, [], true⟩ := by
  unfold onActivated
  rw [htab]
  dsimp only
  rw [hclose]

/-! ## Lemmas on the assessor -/

theorem length_filter_filter (p q : FocusRecord → Bool) (l : List FocusRecord) :
    ((l.filter p).filter q).length = l.countP (fun s => decide (p s = true ∧ q s = true)) := by
  rw [List.filter_filter, List.countP_eq_length_filter]
  congr 2
  funext s
  cases p s <;> cases q s <;> rfl

theorem assessScore_eq_spec (config : Config) (st : State) (sessions : List FocusRecord)
    (nowTs : Int) : assessScore config st sessions nowTs = SpecScore config st sessions nowTs := by
  unfold assessScore SpecScore
  dsimp only
  rw [length_filter_filter, length_filter_filter]
  have e : nowTs - 2 * 60 * 1000 = nowTs - 120000 := by norm_num
  have e2 : (30 * 1000 : Int) = 30000 := by norm_num
  rw [e, e2]
  have h1 : (fun s : FocusRecord =>
      decide (decide (s.timestamp ≥ nowTs - 120000) = true ∧ decide (s.durationMs < 30000) = true))
      = (fun s => decide (s.timestamp ≥ nowTs - 120000 ∧ s.durationMs < 30000)) := by
    funext s
    simp
  have h2 : (fun s : FocusRecord =>
      decide (decide (s.timestamp ≥ nowTs - 120000) = true ∧ (!s.productive) = true))
      = (fun s => decide (s.timestamp ≥ nowTs - 120000 ∧ s.productive = false)) := by
    funext s
    simp
  rw [h1, h2]

theorem productive_guard (P : UrlParser) (config : Config) (url : Option String) :
    (if truthy url = true then isProductiveUrl P config url else false)
      = isProductiveUrl P config url := by
  cases url with
  | none => simp [truthy, isProductiveUrl_null]
  | some s =>
    by_cases hs : s = ""
    · subst hs
      simp [truthy, isProductiveUrl, newURL, urlArgument, P.empty_fails]
    · simp [truthy, hs]

theorem onAlarm_eq (P : UrlParser) (config : Config) (env : Env) (w : World) (nowTs : Int)
    (hread : env.store.readOk = true) :
    onAlarm P config env w "assessFocus" nowTs =
      match w.state.currentTabId with
      | some currentTabId =>
        if SpecScore config w.state (w.sessions.getD []) nowTs ≥ 3 ∧
            nowTs - w.state.lastReminderTimestamp > config.reminderCooldownMs ∧
            isProductiveUrl P config w.state.currentUrl = false then
          ⟨{ w.state with lastReminderTimestamp := nowTs, quickSwitchCount := 0 }, w.sessions,
            [remind P config env.delivery currentTabId "distraction"
              (SpecScore config w.state (w.sessions.getD []) nowTs)], false⟩
        else ⟨w.state, w.sessions, [], false⟩
      | none => ⟨w.state, w.sessions, [], false⟩ := by
  unfold onAlarm
  rw [if_neg (by simp), if_neg (by simp [hread])]
  dsimp only
  rw [assessScore_eq_spec, productive_guard]
  cases w.state.currentTabId with
  | none => rfl
  | some c =>
    dsimp only
    by_cases h1 : SpecScore config w.state (w.sessions.getD []) nowTs ≥ 3 <;>
    by_cases h2 : nowTs - w.state.lastReminderTimestamp > config.reminderCooldownMs <;>
    by_cases h3 : isProductiveUrl P config w.state.currentUrl = false <;>
    simp [h1, h2, h3]

/-! ## Lemmas on the quick-switch block and on the statistics -/

theorem quickSwitch_of_other (st : State) (tabId c : Int) (hc : st.currentTabId = some c)
    (hne : c ≠ tabId) :
    quickSwitch st tabId = { st with quickSwitchCount := st.quickSwitchCount + 1 } := by
  unfold quickSwitch
  rw [if_pos]
  rw [hc]
  exact ⟨by simp, by simpa using hne⟩

theorem quickSwitch_of_same (st : State) (tabId : Int)
    (hc : st.currentTabId = none ∨ st.currentTabId = some tabId) :
    quickSwitch st tabId = st := by
  unfold quickSwitch
  rw [if_neg]
  rintro ⟨h1, h2⟩
  rcases hc with h | h
  · exact h1 h
  · exact h2 h

theorem quickSwitch_frame (st : State) (tabId : Int) :
    (quickSwitch st tabId).currentTabId = st.currentTabId ∧
    (quickSwitch st tabId).currentWindowId = st.currentWindowId ∧
    (quickSwitch st tabId).currentUrl = st.currentUrl ∧
    (quickSwitch st tabId).lastFocusTimestamp = st.lastFocusTimestamp ∧
    (quickSwitch st tabId).lastReminderTimestamp = st.lastReminderTimestamp := by
  unfold quickSwitch
  split <;> exact ⟨rfl, rfl, rfl, rfl, rfl⟩

theorem foldl_focused (l : List FocusRecord) (a : Int) :
    l.foldl (fun acc s => acc + (if s.productive then s.durationMs else 0)) a
      = a + ((l.filter (fun s => s.productive)).map (fun s => s.durationMs)).sum := by
  induction l generalizing a with
  | nil => simp
  | cons r t ih =>
    rw [List.foldl_cons, ih]
    cases hp : r.productive
    · simp [List.filter_cons, hp]
    · simp [List.filter_cons, hp, add_assoc]

theorem relevantSessions_eq_spec (sessions : List FocusRecord) (nowTs : Int) :
    relevantSessions sessions nowTs = SpecWindow sessions nowTs := by
  unfold relevantSessions SpecWindow
  have e : nowTs - 24 * 60 * 60 * 1000 = nowTs - 86400000 := by norm_num
  dsimp only
  rw [e]

theorem getStats_of_read (io : StoreIO) (stored : Option (List FocusRecord)) (nowTs : Int)
    (hread : io.readOk = true) :
    getStats io stored nowTs =
      (some (Response.stats
        (((SpecWindow (stored.getD []) nowTs).filter (fun s => s.productive)).map
          (fun s => s.durationMs)).sum
        ((SpecWindow (stored.getD []) nowTs).countP (fun s => !s.productive))
        (SpecWindow (stored.getD []) nowTs).length), stored) := by
  unfold getStats
  rw [if_pos hread]
  dsimp only
  rw [relevantSessions_eq_spec, foldl_focused, List.countP_eq_length_filter, zero_add]

/-! ## The claims -/

/-- C1: classification is total and agrees with the reference definition: `isProductiveUrl` holds
exactly when the URL parses and its hostname contains a configured productive domain,
`isDistractionUrl` exactly when it parses, contains no productive domain and contains a built-in
distraction domain; a URL that does not parse, and `null`, give false for both; no URL is both
productive and distraction. -/
theorem C1_classification (P : UrlParser) (config : Config) (url : Option String) :
    (isProductiveUrl P config url = true ↔ SpecProductive P config url) ∧
    (isDistractionUrl P config url = true ↔ SpecDistraction P config url) ∧
    ((∃ hostname, newURL P url = some hostname) ∨
      (isProductiveUrl P config url = false ∧ isDistractionUrl P config url = false)) ∧
    (isProductiveUrl P config none = false ∧ isDistractionUrl P config none = false) ∧
    ¬ (isProductiveUrl P config url = true ∧ isDistractionUrl P config url = true) := by
  refine ⟨isProductiveUrl_iff P config url, isDistractionUrl_iff P config url, ?_,
    ⟨isProductiveUrl_null P config, isDistractionUrl_null P config⟩, ?_⟩
  · cases hp : newURL P url with
    | some hostname => exact Or.inl ⟨hostname, rfl⟩
    | none =>
      right
      simp [isProductiveUrl, isDistractionUrl, hp]
  · rintro ⟨h1, h2⟩
    rw [not_productive_of_distraction P config url h2] at h1
    cases h1

/-- C2: when the storage calls succeed, each of the activation, navigation (active tab, new URL)
and idle/locked handlers run at `nowTs` leaves the stored log equal to the old log followed by
the single record `{durationMs = nowTs - lastFocusTimestamp, productive = isProductiveUrl of the
URL tracked before}` when that difference is positive and a URL was tracked, and leaves it
untouched otherwise; the appended duration is positive and the old log stays a prefix. -/
theorem C2_close_out_appends_one_record (P : UrlParser) (config : Config) (env : Env) (w : World)
    (tabId windowId : Int) (tabUrl changeUrl : Option String) (newState : String) (nowTs : Int)
    (hread : env.store.readOk = true) (hsave : env.store.saveOk = true)
    (htab : env.tab = Await.resolved tabUrl) (hnav : truthy changeUrl = true)
    (hidle : newState = "idle" ∨ newState = "locked") :
    let delta := nowTs - w.state.lastFocusTimestamp
    let after : Option (List FocusRecord) :=
      if delta > 0 ∧ truthy w.state.currentUrl = true then
        some (w.sessions.getD [] ++
          [⟨env.recordTs, delta, isProductiveUrl P config w.state.currentUrl⟩])
      else w.sessions
    (onActivated P config env w tabId windowId nowTs).sessions = after ∧
    (onUpdated P config env w tabId changeUrl true nowTs).sessions = after ∧
    (onStateChanged P config env w newState nowTs).sessions = after ∧
    w.sessions.getD [] <+: after.getD [] ∧
    ∀ r ∈ (after.getD []).drop (w.sessions.getD []).length, 0 < r.durationMs := by
  intro delta after
  refine ⟨?_, ?_, ?_, ?_, ?_⟩
  · rw [onActivated_of_closeOut P config env w tabId windowId nowTs tabUrl _ htab
      (closeOut_of_store_ok P config env _ w.sessions w.state.currentUrl nowTs hread hsave)]
    simp only [instantNudge_sessions, quickSwitch_lastFocusTimestamp]
  · unfold onUpdated
    rw [if_pos ⟨rfl, hnav⟩]
    rw [closeOut_of_store_ok P config env _ w.sessions w.state.currentUrl nowTs hread hsave]
    simp only [instantNudge_sessions]
  · unfold onStateChanged
    rw [if_pos hidle]
    rw [closeOut_of_store_ok P config env _ w.sessions w.state.currentUrl nowTs hread hsave]
  · show w.sessions.getD [] <+: after.getD []
    by_cases hc : delta > 0 ∧ truthy w.state.currentUrl = true
    · have : after = some (w.sessions.getD [] ++
          [⟨env.recordTs, delta, isProductiveUrl P config w.state.currentUrl⟩]) := if_pos hc
      rw [this]
      exact List.prefix_append _ _
    · have : after = w.sessions := if_neg hc
      rw [this]
  · intro r hr
    by_cases hc : delta > 0 ∧ truthy w.state.currentUrl = true
    · have : after = some (w.sessions.getD [] ++
          [⟨env.recordTs, delta, isProductiveUrl P config w.state.currentUrl⟩]) := if_pos hc
      rw [this] at hr
      simp only [Option.getD_some, List.drop_left, List.mem_singleton] at hr
      rw [hr]
      exact hc.1
    · have : after = w.sessions := if_neg hc
      rw [this] at hr
      simp at hr

/-- Witness of C2 on Scenario A: a switch at time 10000 away from `github.com`, tracked since
time 0 with an empty log, leaves the log with the single record of 10000 ms. -/
theorem C2_close_out_appends_one_record_witness :
    scenarioEnv.store.readOk = true ∧ scenarioEnv.store.saveOk = true ∧
    scenarioEnv.tab = Await.resolved (some "https://www.reddit.com/") ∧
    truthy (some "https://www.reddit.com/") = true ∧
    ("idle" = "idle" ∨ "idle" = "locked") ∧
    (onActivated sampleParser scenarioConfig scenarioEnv scenarioWorld 2 1 10000).sessions
      = some [⟨10000, 10000, true⟩] :=
  ⟨rfl, rfl, rfl, by decide, Or.inl rfl,
    (C2_close_out_appends_one_record sampleParser scenarioConfig scenarioEnv scenarioWorld 2 1
      (some "https://www.reddit.com/") (some "https://www.reddit.com/") "idle" 10000
      rfl rfl rfl (by decide) (Or.inl rfl)).1.trans (by decide)⟩

/-- C3: when the alarm listener has read the log, it calls `sendReminderToTab` exactly when
score ≥ 3, `nowTs - lastReminderTimestamp > reminderCooldownMs` (strictly), a tab is tracked and
the current URL is not productive, and then exactly once, for the tracked tab and with the
computed score, where the score is the specified sum of the three signals.  Scenarios: five
short non-productive records score 10; a productive current tab suppresses the reminder; with
cooldown 60000 and the last reminder at 0, the tick at 30000 sends nothing and the tick at 61000
sends one reminder. -/
theorem C3_assessor_dispatch (P : UrlParser) (config : Config) (env : Env) (w : World)
    (nowTs : Int) (hread : env.store.readOk = true) :
    let score := SpecScore config w.state (w.sessions.getD []) nowTs
    let o := onAlarm P config env w "assessFocus" nowTs
    assessScore config w.state (w.sessions.getD []) nowTs = score ∧
    (o.reminders ≠ [] ↔
      (score ≥ 3 ∧ nowTs - w.state.lastReminderTimestamp > config.reminderCooldownMs ∧
        w.state.currentTabId ≠ none ∧ isProductiveUrl P config w.state.currentUrl = false)) ∧
    (∀ m ∈ o.reminders,
      o.reminders = [m] ∧ w.state.currentTabId = some m.tabId ∧ m.score = score) ∧
    SpecScore scenarioConfig (patternWorld "https://www.reddit.com/").state fiveShortRecords 30000
      = 10 ∧
    (onAlarm sampleParser scenarioConfig scenarioEnv (patternWorld "https://github.com/")
      "assessFocus" 61000).reminders = [] ∧
    (onAlarm sampleParser scenarioConfig scenarioEnv (patternWorld "https://www.reddit.com/")
      "assessFocus" 30000).reminders = [] ∧
    (onAlarm sampleParser scenarioConfig scenarioEnv (patternWorld "https://www.reddit.com/")
      "assessFocus" 61000).reminders
      = [⟨2, "distraction", 10, true,
          [Call.tabsGet 2, Call.sendMessage 2 "distraction" 10]⟩] := by
  intro score o
  have ho : o = _ := onAlarm_eq P config env w nowTs hread
  refine ⟨assessScore_eq_spec _ _ _ _, ?_, ?_, by decide, by decide, by decide, by decide⟩
  · rw [ho]
    cases hc : w.state.currentTabId with
    | none => simp
    | some c =>
      dsimp only
      by_cases hcond : SpecScore config w.state (w.sessions.getD []) nowTs ≥ 3 ∧
          nowTs - w.state.lastReminderTimestamp > config.reminderCooldownMs ∧
          isProductiveUrl P config w.state.currentUrl = false
      · rw [if_pos hcond]
        simp only [ne_eq, List.cons_ne_nil, not_false_eq_true, true_iff]
        exact ⟨hcond.1, hcond.2.1, by simp, hcond.2.2⟩
      · rw [if_neg hcond]
        simp only [ne_eq, not_true_eq_false, false_iff]
        rintro ⟨h1, h2, _, h4⟩
        exact hcond ⟨h1, h2, h4⟩
  · rw [ho]
    cases hc : w.state.currentTabId with
    | none => simp
    | some c =>
      dsimp only
      split
      · intro m hm
        simp only [List.mem_singleton] at hm
        subst hm
        exact ⟨rfl, rfl, rfl⟩
      · intro m hm
        simp at hm

/-- Witness of C3 on Scenario D at the tick of time 61000: the log is read, and the reminder
list is non-empty exactly under the four conditions, which hold there. -/
theorem C3_assessor_dispatch_witness :
    scenarioEnv.store.readOk = true ∧
    (onAlarm sampleParser scenarioConfig scenarioEnv (patternWorld "https://www.reddit.com/")
      "assessFocus" 61000).reminders ≠ [] :=
  ⟨rfl,
    (C3_assessor_dispatch sampleParser scenarioConfig scenarioEnv
      (patternWorld "https://www.reddit.com/") 61000 rfl).2.1.2 (by decide)⟩

/-- C4: evaluation at the failing input.  A switch at time 10000 onto a `reddit.com` tab that
neither channel reaches makes `sendReminderToTab` return false, and still the listener sets
`lastReminderTimestamp` to 10000 and resets `quickSwitchCount` (2, incremented to 3) to 0; the
alarm listener does the same at time 61000. -/
theorem C4_bookkeeping_ignores_dispatch_result :
    (onActivated sampleParser scenarioConfig deadChannelsEnv switchingWorld 2 1 10000).reminders.map
      (fun m => m.delivered) = [false] ∧
    switchingWorld.state.lastReminderTimestamp = 0 ∧
    switchingWorld.state.quickSwitchCount = 2 ∧
    (onActivated sampleParser scenarioConfig deadChannelsEnv switchingWorld 2 1
      10000).state.lastReminderTimestamp = 10000 ∧
    (onActivated sampleParser scenarioConfig deadChannelsEnv switchingWorld 2 1
      10000).state.quickSwitchCount = 0 ∧
    (onAlarm sampleParser scenarioConfig deadChannelsEnv
      (patternWorld "https://www.reddit.com/") "assessFocus" 61000).reminders.map
      (fun m => m.delivered) = [false] ∧
    (onAlarm sampleParser scenarioConfig deadChannelsEnv
      (patternWorld "https://www.reddit.com/") "assessFocus"
      61000).state.lastReminderTimestamp = 61000 := by
  decide

/-- C5: evaluation at the failing input.  With a cooldown of 60000 ms, two tab activations at
times 1000 and 1001 onto distraction sites each send a reminder that is delivered: two
dispatches one millisecond apart. -/
theorem C5_instant_path_ignores_cooldown :
    scenarioConfig.reminderCooldownMs = 60000 ∧
    (run sampleParser scenarioConfig scenarioWorld twoActivations).2.map
      (fun tm => (tm.1, tm.2.tabId, tm.2.reason, tm.2.delivered))
      = [(1000, 2, "distraction-site", true), (1001, 3, "distraction-site", true)] := by
  decide

/-- C6: when the tab lookup and the storage calls succeed, the activation listener leaves
`currentTabId`, `currentWindowId`, `currentUrl` at the new values and `lastFocusTimestamp` at
`nowTs`, and calls `sendReminderToTab` exactly when the new URL is a distraction URL, once, with
reason `distraction-site`, score 99 and the new tab; never for a productive or unparseable URL.
Scenario A: leaving `github.com` after 10000 ms for a `reddit.com` tab appends the record
`{durationMs: 10000, productive: true}` and sends the reminder to the `reddit.com` tab. -/
theorem C6_activation_transition (P : UrlParser) (config : Config) (env : Env) (w : World)
    (tabId windowId : Int) (tabUrl : Option String) (nowTs : Int)
    (htab : env.tab = Await.resolved tabUrl)
    (hread : env.store.readOk = true) (hsave : env.store.saveOk = true) :
    let newUrl := orNull tabUrl
    let o := onActivated P config env w tabId windowId nowTs
    o.state.currentTabId = some tabId ∧
    o.state.currentWindowId = some windowId ∧
    o.state.currentUrl = newUrl ∧
    o.state.lastFocusTimestamp = nowTs ∧
    o.reminders = (if isDistractionUrl P config newUrl = true then
        [remind P config env.delivery tabId "distraction-site" 99] else []) ∧
    (∀ m ∈ o.reminders, m.reason = "distraction-site" ∧ m.score = 99 ∧ m.tabId = tabId) ∧
    ¬ (o.reminders ≠ [] ∧ (isProductiveUrl P config newUrl = true ∨ newURL P newUrl = none)) ∧
    (onActivated sampleParser scenarioConfig scenarioEnv scenarioWorld 2 1 10000).sessions
      = some [⟨10000, 10000, true⟩] ∧
    (onActivated sampleParser scenarioConfig scenarioEnv scenarioWorld 2 1 10000).reminders
      = [⟨2, "distraction-site", 99, true,
          [Call.tabsGet 2, Call.sendMessage 2 "distraction-site" 99]⟩] := by
  intro newUrl o
  have ho : o = _ := onActivated_of_closeOut P config env w tabId windowId nowTs tabUrl _ htab
    (closeOut_of_store_ok P config env _ w.sessions w.state.currentUrl nowTs hread hsave)
  have hrem : o.reminders = (if isDistractionUrl P config newUrl = true then
      [remind P config env.delivery tabId "distraction-site" 99] else []) := by
    rw [ho, instantNudge_reminders]
  refine ⟨?_, ?_, ?_, ?_, hrem, ?_, ?_, by decide, by decide⟩
  · rw [ho, instantNudge_state]; split <;> rfl
  · rw [ho, instantNudge_state]; split <;> rfl
  · rw [ho, instantNudge_state]; split <;> rfl
  · rw [ho, instantNudge_state]; split <;> rfl
  · intro m hm
    rw [hrem] at hm
    split at hm
    · simp only [List.mem_singleton] at hm
      subst hm
      exact ⟨rfl, rfl, rfl⟩
    · simp at hm
  · rintro ⟨hne, hbad⟩
    rw [hrem] at hne
    by_cases hd : isDistractionUrl P config newUrl = true
    · rcases hbad with hp | hu
      · rw [not_productive_of_distraction P config newUrl hd] at hp
        cases hp
      · simp [isDistractionUrl, hu] at hd
    · rw [if_neg hd] at hne
      exact hne rfl

/-- Witness of C6 on Scenario A. -/
theorem C6_activation_transition_witness :
    scenarioEnv.tab = Await.resolved (some "https://www.reddit.com/") ∧
    scenarioEnv.store.readOk = true ∧ scenarioEnv.store.saveOk = true ∧
    (onActivated sampleParser scenarioConfig scenarioEnv scenarioWorld 2 1
      10000).state.currentUrl = some "https://www.reddit.com/" :=
  ⟨rfl, rfl, rfl,
    (C6_activation_transition sampleParser scenarioConfig scenarioEnv scenarioWorld 2 1
      (some "https://www.reddit.com/") 10000 rfl rfl rfl).2.2.1.trans (by decide)⟩

/-- C7: `sendReminderToTab` always returns, and returns true exactly when (the tab lookup failed
or the looked-up URL is a distraction URL) and (the message or the injection succeeded).  When
the lookup succeeds on a URL that is not a distraction URL it returns false and issues no call
besides the lookup; the message is attempted exactly when the guard did not suppress, and the
injection exactly when moreover the message failed; a failed lookup leaves delivery to the two
channels. -/
theorem C7_dispatch_policy (P : UrlParser) (config : Config) (d : Delivery) (tabId : Int)
    (reason : String) (score : Int) :
    let guardOpen : Prop :=
      d.tab = Await.rejected ∨
        ∃ url, d.tab = Await.resolved url ∧ isDistractionUrl P config (some (url.getD "")) = true
    let r := sendReminderToTab P config d tabId reason score
    (r.1 = true ↔ guardOpen ∧ (d.sendMessageOk = true ∨ d.executeScriptOk = true)) ∧
    (¬ guardOpen ↔ r = (false, [Call.tabsGet tabId])) ∧
    (Call.sendMessage tabId reason score ∈ r.2 ↔ guardOpen) ∧
    (Call.executeScript tabId (inlineText reason) score ∈ r.2 ↔
      guardOpen ∧ d.sendMessageOk = false) ∧
    (d.tab = Await.rejected ∧ r = deliver d tabId reason score ∨
      ∃ url, d.tab = Await.resolved url) := by
  intro guardOpen r
  cases htab : d.tab with
  | rejected =>
    have hg : guardOpen := Or.inl htab
    have hr : r = deliver d tabId reason score := by
      show sendReminderToTab P config d tabId reason score = _
      unfold sendReminderToTab
      rw [htab]
    rw [hr]
    unfold deliver
    cases hm : d.sendMessageOk <;> cases he : d.executeScriptOk <;> simp [hg]
  | resolved url =>
    by_cases hd : isDistractionUrl P config (some (url.getD "")) = true
    · have hg : guardOpen := Or.inr ⟨url, htab, hd⟩
      have hr : r = deliver d tabId reason score := by
        show sendReminderToTab P config d tabId reason score = _
        unfold sendReminderToTab
        rw [htab]
        dsimp only
        rw [if_pos hd]
      rw [hr]
      unfold deliver
      cases hm : d.sendMessageOk <;> cases he : d.executeScriptOk <;> simp [hg]
    · have hg : ¬ guardOpen := by
        rintro (h | ⟨u, hu, hu2⟩)
        · rw [htab] at h; cases h
        · rw [htab] at hu; cases hu; exact hd hu2
      have hr : r = (false, [Call.tabsGet tabId]) := by
        show sendReminderToTab P config d tabId reason score = _
        unfold sendReminderToTab
        rw [htab]
        dsimp only
        rw [if_neg hd]
      rw [hr]
      simp [hg]

/-- C8: when the tab lookup succeeds, activating a tab other than the tracked one whose URL is
not a distraction URL leaves `quickSwitchCount` one higher than before; when no tab was tracked
or the activated tab is the tracked one the counter is not incremented: it keeps its value, or is
0 when the listener sent a reminder. -/
theorem C8_quick_switch_increment (P : UrlParser) (config : Config) (env : Env) (w : World)
    (tabId windowId : Int) (tabUrl : Option String) (nowTs : Int)
    (htab : env.tab = Await.resolved tabUrl) :
    ((∃ c, w.state.currentTabId = some c ∧ c ≠ tabId) ∧
        isDistractionUrl P config (orNull tabUrl) = false →
      (onActivated P config env w tabId windowId nowTs).state.quickSwitchCount
        = w.state.quickSwitchCount + 1) ∧
    (w.state.currentTabId = none ∨ w.state.currentTabId = some tabId →
      (onActivated P config env w tabId windowId nowTs).state.quickSwitchCount
        = if (onActivated P config env w tabId windowId nowTs).reminders = [] then
            w.state.quickSwitchCount
          else 0) := by
  constructor
  · rintro ⟨⟨c, hc, hne⟩, hd⟩
    cases hclose : closeOut P config env (quickSwitch w.state tabId) w.sessions
        w.state.currentUrl nowTs with
    | rejected =>
      rw [onActivated_of_closeOut_rejected P config env w tabId windowId nowTs tabUrl htab hclose,
        quickSwitch_of_other w.state tabId c hc hne]
    | resolved stored =>
      rw [onActivated_of_closeOut P config env w tabId windowId nowTs tabUrl stored htab hclose,
        instantNudge_state, if_neg (by simp [hd]), quickSwitch_of_other w.state tabId c hc hne]
  · intro hsame
    cases hclose : closeOut P config env (quickSwitch w.state tabId) w.sessions
        w.state.currentUrl nowTs with
    | rejected =>
      rw [onActivated_of_closeOut_rejected P config env w tabId windowId nowTs tabUrl htab hclose,
        quickSwitch_of_same w.state tabId hsame]
      rfl
    | resolved stored =>
      rw [onActivated_of_closeOut P config env w tabId windowId nowTs tabUrl stored htab hclose,
        instantNudge_state, instantNudge_reminders, quickSwitch_of_same w.state tabId hsame]
      by_cases hd : isDistractionUrl P config (orNull tabUrl) = true
      · rw [if_pos hd, if_pos hd, if_neg (by simp)]
      · rw [if_neg hd, if_neg hd, if_pos rfl]

/-- Witness of C8: with tab 1 tracked and two quick switches counted, activating tab 2 on the
neutral site `example.org` leaves the counter at 3. -/
theorem C8_quick_switch_increment_witness :
    neutralEnv.tab = Await.resolved (some "https://example.org/") ∧
    (onActivated sampleParser scenarioConfig neutralEnv switchingWorld 2 1
      10000).state.quickSwitchCount = 3 :=
  ⟨rfl,
    ((C8_quick_switch_increment sampleParser scenarioConfig neutralEnv switchingWorld 2 1
      (some "https://example.org/") 10000 rfl).1
        ⟨⟨1, rfl, by decide⟩, by decide⟩).trans (by decide)⟩

/-- C9, counterexample: with `save` rejecting, a switch at time 10000 from the tracked
`github.com` tab 1 to the `reddit.com` tab 2 rejects the activation listener and leaves
`currentUrl`, `currentTabId` and `lastFocusTimestamp` at their old values, whereas the same
switch with the append succeeding installs the new values; a navigation and an idle transition
reject in the same way. -/
theorem C9_store_failure_aborts_transition :
    (onActivated sampleParser scenarioConfig saveFailsEnv scenarioWorld 2 1 10000).rejected
      = true ∧
    (onActivated sampleParser scenarioConfig saveFailsEnv scenarioWorld 2 1 10000).state
      = ⟨some 1, some 1, some "https://github.com/", 0, 0, 1⟩ ∧
    (onActivated sampleParser scenarioConfig saveFailsEnv scenarioWorld 2 1 10000).sessions
      = some [] ∧
    (onActivated sampleParser scenarioConfig scenarioEnv scenarioWorld 2 1 10000).state.currentUrl
      = some "https://www.reddit.com/" ∧
    (onActivated sampleParser scenarioConfig scenarioEnv scenarioWorld 2 1
      10000).state.lastFocusTimestamp = 10000 ∧
    onUpdated sampleParser scenarioConfig saveFailsEnv scenarioWorld 1
      (some "https://www.reddit.com/") true 10000
      = ⟨scenarioWorld.state, scenarioWorld.sessions, [], true⟩ ∧
    onStateChanged sampleParser scenarioConfig saveFailsEnv scenarioWorld "idle" 10000
      = ⟨scenarioWorld.state, scenarioWorld.sessions, [], true⟩ := by
  decide

/-- C9, amended: in the activation (tab lookup succeeded), navigation (active tab, new URL) and
idle/locked handlers, when an append is attempted and a storage call fails, the handler rejects,
the log is unchanged, no reminder is sent and the state is the one before the handler, except
that activation keeps the quick-switch update made before the close-out (which leaves
`currentTabId`, `currentWindowId`, `currentUrl`, `lastFocusTimestamp` and
`lastReminderTimestamp` as they were).  When no append is attempted or the storage calls
succeed, the handlers do not reject and leave `lastFocusTimestamp = nowTs` and the new
`currentUrl` (for activation also the new tab and window). -/
theorem C9_store_failure_amended (P : UrlParser) (config : Config) (env : Env) (w : World)
    (tabId windowId : Int) (tabUrl changeUrl : Option String) (newState : String) (nowTs : Int)
    (htab : env.tab = Await.resolved tabUrl) (hnav : truthy changeUrl = true)
    (hidle : newState = "idle" ∨ newState = "locked") :
    ((nowTs - w.state.lastFocusTimestamp > 0 ∧ truthy w.state.currentUrl = true) ∧
        (env.store.readOk = false ∨ env.store.saveOk = false) →
      onActivated P config env w tabId windowId nowTs
        = ⟨quickSwitch w.state tabId, w.sessions, [], true⟩ ∧
      (quickSwitch w.state tabId).currentTabId = w.state.currentTabId ∧
      (quickSwitch w.state tabId).currentWindowId = w.state.currentWindowId ∧
      (quickSwitch w.state tabId).currentUrl = w.state.currentUrl ∧
      (quickSwitch w.state tabId).lastFocusTimestamp = w.state.lastFocusTimestamp ∧
      (quickSwitch w.state tabId).lastReminderTimestamp = w.state.lastReminderTimestamp ∧
      onUpdated P config env w tabId changeUrl true nowTs = ⟨w.state, w.sessions, [], true⟩ ∧
      onStateChanged P config env w newState nowTs = ⟨w.state, w.sessions, [], true⟩) ∧
    (¬ (nowTs - w.state.lastFocusTimestamp > 0 ∧ truthy w.state.currentUrl = true) ∨
        (env.store.readOk = true ∧ env.store.saveOk = true) →
      (onActivated P config env w tabId windowId nowTs).rejected = false ∧
      (onActivated P config env w tabId windowId nowTs).state.currentTabId = some tabId ∧
      (onActivated P config env w tabId windowId nowTs).state.currentWindowId = some windowId ∧
      (onActivated P config env w tabId windowId nowTs).state.currentUrl = orNull tabUrl ∧
      (onActivated P config env w tabId windowId nowTs).state.lastFocusTimestamp = nowTs ∧
      (onUpdated P config env w tabId changeUrl true nowTs).rejected = false ∧
      (onUpdated P config env w tabId changeUrl true nowTs).state.currentUrl = changeUrl ∧
      (onUpdated P config env w tabId changeUrl true nowTs).state.lastFocusTimestamp = nowTs ∧
      (onStateChanged P config env w newState nowTs).rejected = false ∧
      (onStateChanged P config env w newState nowTs).state.currentUrl = w.state.currentUrl ∧
      (onStateChanged P config env w newState nowTs).state.lastFocusTimestamp = nowTs) := by
  constructor
  · rintro ⟨hdue, hfail⟩
    have hdue1 : nowTs - (quickSwitch w.state tabId).lastFocusTimestamp > 0 ∧
        truthy w.state.currentUrl = true := by
      rw [quickSwitch_lastFocusTimestamp]; exact hdue
    have hq := quickSwitch_frame w.state tabId
    refine ⟨?_, hq.1, hq.2.1, hq.2.2.1, hq.2.2.2.1, hq.2.2.2.2, ?_, ?_⟩
    · exact onActivated_of_closeOut_rejected P config env w tabId windowId nowTs tabUrl htab
        (closeOut_of_store_fails P config env _ w.sessions w.state.currentUrl nowTs hdue1 hfail)
    · unfold onUpdated
      rw [if_pos ⟨rfl, hnav⟩,
        closeOut_of_store_fails P config env _ w.sessions w.state.currentUrl nowTs hdue hfail]
    · unfold onStateChanged
      rw [if_pos hidle,
        closeOut_of_store_fails P config env _ w.sessions w.state.currentUrl nowTs hdue hfail]
  · intro hok
    have hclose : ∀ st : State, st.lastFocusTimestamp = w.state.lastFocusTimestamp →
        ∃ stored, closeOut P config env st w.sessions w.state.currentUrl nowTs
          = Await.resolved stored := by
      intro st hst
      rcases hok with hnot | ⟨hr, hs⟩
      · exact ⟨_, closeOut_of_not_due P config env st w.sessions w.state.currentUrl nowTs
          (by rw [hst]; exact hnot)⟩
      · exact ⟨_, closeOut_of_store_ok P config env st w.sessions w.state.currentUrl nowTs hr hs⟩
    obtain ⟨s1, h1⟩ := hclose (quickSwitch w.state tabId) (quickSwitch_lastFocusTimestamp _ _)
    obtain ⟨s2, h2⟩ := hclose w.state rfl
    have ha := onActivated_of_closeOut P config env w tabId windowId nowTs tabUrl s1 htab h1
    have hu : onUpdated P config env w tabId changeUrl true nowTs =
        instantNudge P config env
          { w.state with currentUrl := changeUrl, lastFocusTimestamp := nowTs }
          s2 tabId changeUrl nowTs := by
      unfold onUpdated
      rw [if_pos ⟨rfl, hnav⟩, h2]
    have hi : onStateChanged P config env w newState nowTs =
        ⟨{ w.state with lastFocusTimestamp := nowTs }, s2, [], false⟩ := by
      unfold onStateChanged
      rw [if_pos hidle, h2]
    rw [ha, hu, hi]
    refine ⟨instantNudge_rejected _ _ _ _ _ _ _ _, ?_, ?_, ?_, ?_,
      instantNudge_rejected _ _ _ _ _ _ _ _, ?_, ?_, rfl, rfl, rfl⟩ <;>
    (rw [instantNudge_state]; split <;> rfl)

/-- Witness of C9 amended: with `save` rejecting, the switch of Scenario A rejects and leaves
the log untouched. -/
theorem C9_store_failure_amended_witness :
    saveFailsEnv.tab = Await.resolved (some "https://www.reddit.com/") ∧
    truthy (some "https://www.reddit.com/") = true ∧
    ("idle" = "idle" ∨ "idle" = "locked") ∧
    onStateChanged sampleParser scenarioConfig saveFailsEnv scenarioWorld "idle" 10000
      = ⟨scenarioWorld.state, scenarioWorld.sessions, [], true⟩ :=
  ⟨rfl, by decide, Or.inl rfl,
    ((C9_store_failure_amended sampleParser scenarioConfig saveFailsEnv scenarioWorld 2 1
      (some "https://www.reddit.com/") (some "https://www.reddit.com/") "idle" 10000
      rfl (by decide) (Or.inl rfl)).1 ⟨by decide, Or.inr rfl⟩).2.2.2.2.2.2.2⟩

/-- C10: when the log is read, `GET_STATS` at time `nowTs` answers with, over the window of
records with `timestamp ≥ nowTs - 86400000` taken in log order, the sum of `durationMs` of the
productive records, the number of non-productive records and the number of records; the world is
left unchanged and a second call at the same time gives the same answer. -/
theorem C10_get_stats (io : StoreIO) (w : World) (nowTs : Int) (hread : io.readOk = true) :
    onMessage io w "GET_STATS" nowTs =
      (some (Response.stats
        (((SpecWindow (w.sessions.getD []) nowTs).filter (fun s => s.productive)).map
          (fun s => s.durationMs)).sum
        ((SpecWindow (w.sessions.getD []) nowTs).countP (fun s => !s.productive))
        (SpecWindow (w.sessions.getD []) nowTs).length), w) ∧
    (SpecWindow (w.sessions.getD []) nowTs).Sublist (w.sessions.getD []) ∧
    (∀ r, r ∈ SpecWindow (w.sessions.getD []) nowTs ↔
      r ∈ w.sessions.getD [] ∧ r.timestamp ≥ nowTs - 86400000) ∧
    onMessage io (onMessage io w "GET_STATS" nowTs).2 "GET_STATS" nowTs
      = onMessage io w "GET_STATS" nowTs := by
  have h : onMessage io w "GET_STATS" nowTs =
      (some (Response.stats
        (((SpecWindow (w.sessions.getD []) nowTs).filter (fun s => s.productive)).map
          (fun s => s.durationMs)).sum
        ((SpecWindow (w.sessions.getD []) nowTs).countP (fun s => !s.productive))
        (SpecWindow (w.sessions.getD []) nowTs).length), w) := by
    unfold onMessage
    rw [if_pos rfl, getStats_of_read io w.sessions nowTs hread]
  refine ⟨h, List.filter_sublist _, ?_, ?_⟩
  · intro r
    simp [SpecWindow]
  · rw [h]
    exact h

/-- Witness of C10: at time 90000000 the log of `statsWorld` gives 7000 ms of focus, one
distraction and two samples. -/
theorem C10_get_stats_witness :
    (⟨true, true⟩ : StoreIO).readOk = true ∧
    (onMessage ⟨true, true⟩ statsWorld "GET_STATS" 90000000).1
      = some (Response.stats 7000 1 2) :=
  ⟨rfl,
    (congrArg Prod.fst (C10_get_stats ⟨true, true⟩ statsWorld 90000000 rfl).1).trans
      (by decide)⟩

/-! ## Lemmas for the reset, the guard and event sequences -/

theorem isDistractionUrl_orEmpty (P : UrlParser) (config : Config) (url : Option String) :
    isDistractionUrl P config (some (url.getD "")) = isDistractionUrl P config url := by
  cases url with
  | none =>
    rw [isDistractionUrl_null]
    simp [isDistractionUrl, newURL, urlArgument, P.empty_fails]
  | some s => rfl

theorem sendReminderToTab_suppressed (P : UrlParser) (config : Config) (d : Delivery)
    (tabId : Int) (reason : String) (score : Int) (url : Option String)
    (htab : d.tab = Await.resolved url)
    (hnot : isDistractionUrl P config (some (url.getD "")) = false) :
    sendReminderToTab P config d tabId reason score = (false, [Call.tabsGet tabId]) := by
  unfold sendReminderToTab
  rw [htab]
  dsimp only
  rw [if_neg (by simp [hnot])]

theorem onMessage_reset (io : StoreIO) (w : World) (nowTs : Int) :
    onMessage io w "RESET_DATA" nowTs =
      ((resetData io w.sessions).1, ⟨w.state, (resetData io w.sessions).2⟩) := by
  unfold onMessage
  rw [if_neg (by decide), if_pos rfl]

/-- C11: when the save of `RESET_DATA` and the read of `GET_STATS` succeed, `RESET_DATA`
answers `{ok: true}` and leaves an empty log, the following `GET_STATS` answers
`{totalFocusedMs: 0, distractionCount: 0, samples: 0}` whatever the log held and whatever the
time, and `RESET_DATA` never changes the activity state. -/
theorem C11_reset_then_stats (io io2 : StoreIO) (w : World) (resetTs nowTs : Int)
    (hsave : io.saveOk = true) (hread : io2.readOk = true) :
    onMessage io w "RESET_DATA" resetTs = (some Response.ok, ⟨w.state, some []⟩) ∧
    (onMessage io2 (onMessage io w "RESET_DATA" resetTs).2 "GET_STATS" nowTs).1
      = some (Response.stats 0 0 0) ∧
    (∀ io3 : StoreIO, (onMessage io3 w "RESET_DATA" resetTs).2.state = w.state) := by
  have hreset : onMessage io w "RESET_DATA" resetTs = (some Response.ok, ⟨w.state, some []⟩) := by
    rw [onMessage_reset]
    unfold resetData
    rw [if_pos hsave]
  refine ⟨hreset, ?_, ?_⟩
  · rw [hreset]
    unfold onMessage
    rw [if_pos rfl]
    unfold getStats
    rw [if_pos hread]
    rfl
  · intro io3
    rw [onMessage_reset]

/-- Witness of C11: resetting the three-record log of `statsWorld` and asking for the statistics
at time 90000000 gives all zeros. -/
theorem C11_reset_then_stats_witness :
    (⟨true, true⟩ : StoreIO).saveOk = true ∧ (⟨true, true⟩ : StoreIO).readOk = true ∧
    (onMessage ⟨true, true⟩ (onMessage ⟨true, true⟩ statsWorld "RESET_DATA" 80000000).2
      "GET_STATS" 90000000).1 = some (Response.stats 0 0 0) :=
  ⟨rfl, rfl,
    (C11_reset_then_stats ⟨true, true⟩ ⟨true, true⟩ statsWorld 80000000 90000000 rfl rfl).2.1⟩

theorem onStateChanged_idle (P : UrlParser) (config : Config) (env : Env) (w : World)
    (newState : String) (nowTs : Int) (stored : Option (List FocusRecord))
    (hidle : newState = "idle" ∨ newState = "locked")
    (hclose : closeOut P config env w.state w.sessions w.state.currentUrl nowTs
      = Await.resolved stored) :
    onStateChanged P config env w newState nowTs =
      ⟨{ w.state with lastFocusTimestamp := nowTs }, stored, [], false⟩ := by
  unfold onStateChanged
  rw [if_pos hidle, hclose]

theorem onStateChanged_active (P : UrlParser) (config : Config) (env : Env) (w : World)
    (nowTs : Int) :
    onStateChanged P config env w "active" nowTs =
      ⟨{ w.state with quickSwitchCount := 0, lastFocusTimestamp := nowTs }, w.sessions, [],
        false⟩ := by
  unfold onStateChanged
  rw [if_neg (by decide), if_pos rfl]

/-- Frame of the idle-state listener.  With the storage calls succeeding, a change to `idle` or
`locked` at `nowTs` closes out the current interval with `currentUrl` (one record of
`nowTs - lastFocusTimestamp` when that is positive and a URL is tracked, nothing otherwise), sets
`lastFocusTimestamp = nowTs` and leaves every other field of the state as it was; a change to
`active` sets `quickSwitchCount = 0` and `lastFocusTimestamp` to its clock reading and leaves
the log and every other field as they were; when `active` at `resumeTs` follows the idle
transition, the next idle transition at `laterTs` measures its interval from `resumeTs`. -/
theorem idle_state_frame (P : UrlParser) (config : Config) (env : Env) (w : World)
    (newState : String) (nowTs resumeTs laterTs : Int)
    (hread : env.store.readOk = true) (hsave : env.store.saveOk = true)
    (hidle : newState = "idle" ∨ newState = "locked") :
    let after : Option (List FocusRecord) :=
      if nowTs - w.state.lastFocusTimestamp > 0 ∧ truthy w.state.currentUrl = true then
        some (w.sessions.getD [] ++ [⟨env.recordTs, nowTs - w.state.lastFocusTimestamp,
          isProductiveUrl P config w.state.currentUrl⟩])
      else w.sessions
    let idled := onStateChanged P config env w newState nowTs
    let resumed := onStateChanged P config env idled.world "active" resumeTs
    idled = ⟨{ w.state with lastFocusTimestamp := nowTs }, after, [], false⟩ ∧
    onStateChanged P config env w "active" nowTs
      = ⟨{ w.state with quickSwitchCount := 0, lastFocusTimestamp := nowTs }, w.sessions, [],
          false⟩ ∧
    resumed = ⟨{ w.state with quickSwitchCount := 0, lastFocusTimestamp := resumeTs }, after, [],
      false⟩ ∧
    (onStateChanged P config env resumed.world newState laterTs).sessions
      = (if laterTs - resumeTs > 0 ∧ truthy w.state.currentUrl = true then
          some (after.getD [] ++ [⟨env.recordTs, laterTs - resumeTs,
            isProductiveUrl P config w.state.currentUrl⟩])
        else after) := by
  intro after idled resumed
  have h1 : idled = ⟨{ w.state with lastFocusTimestamp := nowTs }, after, [], false⟩ :=
    onStateChanged_idle P config env w newState nowTs after hidle
      (closeOut_of_store_ok P config env w.state w.sessions w.state.currentUrl nowTs hread hsave)
  have h2 : resumed = ⟨{ w.state with quickSwitchCount := 0, lastFocusTimestamp := resumeTs },
      after, [], false⟩ := by
    show onStateChanged P config env idled.world "active" resumeTs = _
    rw [onStateChanged_active, h1]
    rfl
  refine ⟨h1, onStateChanged_active P config env w nowTs, h2, ?_⟩
  rw [h2]
  rw [onStateChanged_idle P config env _ newState laterTs _ hidle
    (closeOut_of_store_ok P config env _ _ _ laterTs hread hsave)]
  rfl

/-- The frame on Scenario A's state: idle at 25000 appends the record of 25000 ms, and after
resumption at 90000 the idle transition at 95000 appends a record of 5000 ms only. -/
theorem idle_state_frame_example :
    scenarioEnv.store.readOk = true ∧ scenarioEnv.store.saveOk = true ∧
    ("idle" = "idle" ∨ "idle" = "locked") ∧
    (onStateChanged sampleParser scenarioConfig scenarioEnv
      (onStateChanged sampleParser scenarioConfig scenarioEnv
        (onStateChanged sampleParser scenarioConfig scenarioEnv scenarioWorld "idle" 25000).world
        "active" 90000).world "idle" 95000).sessions
      = some [⟨10000, 25000, true⟩, ⟨10000, 5000, true⟩] :=
  ⟨rfl, rfl, Or.inl rfl,
    (idle_state_frame sampleParser scenarioConfig scenarioEnv scenarioWorld "idle"
      25000 90000 95000 rfl rfl (Or.inl rfl)).2.2.2.trans (by decide)⟩

/-- C12: evaluation at the failing input.  Tab 1 on `github.com` is tracked since time 0 with
an empty log.  The change to `idle` at 25000 stores the record of 25000 ms and sets
`lastFocusTimestamp = 25000`, leaving the rest of the state as it was; the change to `locked`
at 90000, with no `active` in between, stores a second record of 65000 ms, all of it idle time,
and so does a navigation of the active tab at 90000. -/
theorem C12_idle_time_recorded :
    (onStateChanged sampleParser scenarioConfig (idleEnv 25000) scenarioWorld "idle" 25000)
      = ⟨⟨some 1, some 1, some "https://github.com/", 25000, 0, 0⟩,
          some [⟨25000, 25000, true⟩], [], false⟩ ∧
    (run sampleParser scenarioConfig scenarioWorld idleThenLocked).1.sessions
      = some [⟨25000, 25000, true⟩, ⟨90000, 65000, true⟩] ∧
    (run sampleParser scenarioConfig scenarioWorld idleThenNavigation).1.sessions
      = some [⟨25000, 25000, true⟩, ⟨90000, 65000, true⟩] := by
  decide

/-- C13, counterexample: at the tick of time 61000 the tracked tab 2 shows the neutral site
`example.org` (not productive, not a distraction site), the score is 10, the cooldown has
elapsed and the message channel is reachable; the alarm listener calls `sendReminderToTab`,
which only looks the tab up and returns false. -/
theorem C13_guard_suppresses_pattern_reminder :
    isProductiveUrl sampleParser scenarioConfig (some "https://example.org/") = false ∧
    isDistractionUrl sampleParser scenarioConfig (some "https://example.org/") = false ∧
    neutralEnv.delivery.sendMessageOk = true ∧
    (onAlarm sampleParser scenarioConfig neutralEnv (patternWorld "https://example.org/")
      "assessFocus" 61000).reminders
      = [⟨2, "distraction", 10, false, [Call.tabsGet 2]⟩] := by
  decide

/-- C13, amended: the guard of `sendReminderToTab` is the same for every reason.  When the alarm
listener has read the log, the pattern conditions hold, the tracked tab shows a URL that is
neither productive nor a distraction URL and the tab lookup returns that URL, the listener calls
`sendReminderToTab` once for the tracked tab, and the call returns false after the lookup alone,
whatever the two channels would answer; the same holds for any tab, reason and score. -/
theorem C13_guard_same_on_both_paths (P : UrlParser) (config : Config) (env : Env) (w : World)
    (nowTs : Int) (c : Int)
    (hread : env.store.readOk = true)
    (htracked : w.state.currentTabId = some c)
    (hlookup : env.delivery.tab = Await.resolved w.state.currentUrl)
    (hprod : isProductiveUrl P config w.state.currentUrl = false)
    (hneutral : isDistractionUrl P config w.state.currentUrl = false)
    (hscore : SpecScore config w.state (w.sessions.getD []) nowTs ≥ 3)
    (hcool : nowTs - w.state.lastReminderTimestamp > config.reminderCooldownMs) :
    (onAlarm P config env w "assessFocus" nowTs).reminders
      = [⟨c, "distraction", SpecScore config w.state (w.sessions.getD []) nowTs, false,
          [Call.tabsGet c]⟩] ∧
    (∀ (tabId : Int) (reason : String) (score : Int),
      sendReminderToTab P config env.delivery tabId reason score
        = (false, [Call.tabsGet tabId])) := by
  have hguard : ∀ (tabId : Int) (reason : String) (score : Int),
      sendReminderToTab P config env.delivery tabId reason score
        = (false, [Call.tabsGet tabId]) := fun tabId reason score =>
    sendReminderToTab_suppressed P config env.delivery tabId reason score w.state.currentUrl
      hlookup (by rw [isDistractionUrl_orEmpty]; exact hneutral)
  refine ⟨?_, hguard⟩
  rw [onAlarm_eq P config env w nowTs hread, htracked]
  dsimp only
  rw [if_pos ⟨hscore, hcool, hprod⟩]
  show [remind P config env.delivery c "distraction" _] = _
  unfold remind
  rw [hguard]

/-- Witness of C13 amended, on the input of the counterexample. -/
theorem C13_guard_same_on_both_paths_witness :
    neutralEnv.store.readOk = true ∧
    (patternWorld "https://example.org/").state.currentTabId = some 2 ∧
    neutralEnv.delivery.tab = Await.resolved (patternWorld "https://example.org/").state.currentUrl ∧
    (sendReminderToTab sampleParser scenarioConfig neutralEnv.delivery 2 "distraction-site" 99
      = (false, [Call.tabsGet 2])) :=
  ⟨rfl, rfl, rfl,
    (C13_guard_same_on_both_paths sampleParser scenarioConfig neutralEnv
      (patternWorld "https://example.org/") 61000 2 rfl rfl rfl (by decide) (by decide)
      (by decide) (by decide)).2 2 "distraction-site" 99⟩

/-! ## Lemmas on sequences of tracker events -/

theorem closeOut_appends (P : UrlParser) (config : Config) (env : Env) (st : State)
    (stored : Option (List FocusRecord)) (prevUrl : Option String) (nowTs : Int)
    (hr : env.store.readOk = true) (hs : env.store.saveOk = true)
    (hle : st.lastFocusTimestamp ≤ nowTs) :
    ∃ (stored2 : Option (List FocusRecord)) (app : List FocusRecord),
      closeOut P config env st stored prevUrl nowTs = Await.resolved stored2 ∧
      stored2.getD [] = stored.getD [] ++ app ∧
      (∀ r ∈ app, 0 < r.durationMs) ∧
      (app.map (fun r => r.durationMs)).sum ≤ nowTs - st.lastFocusTimestamp := by
  by_cases hc : nowTs - st.lastFocusTimestamp > 0 ∧ truthy prevUrl = true
  · refine ⟨_, [⟨env.recordTs, nowTs - st.lastFocusTimestamp, isProductiveUrl P config prevUrl⟩],
      closeOut_of_store_ok P config env st stored prevUrl nowTs hr hs, ?_, ?_, ?_⟩
    · rw [if_pos hc]
      rfl
    · intro r hr2
      rw [List.mem_singleton] at hr2
      rw [hr2]
      exact hc.1
    · simp
  · refine ⟨stored, [], closeOut_of_not_due P config env st stored prevUrl nowTs hc, ?_, ?_, ?_⟩
    · simp
    · intro r hr2
      cases hr2
    · simp only [List.map_nil, List.sum_nil]
      omega

theorem instantNudge_lastFocusTimestamp (P : UrlParser) (config : Config) (env : Env)
    (st : State) (stored : Option (List FocusRecord)) (tabId : Int) (url : Option String)
    (nowTs : Int) :
    (instantNudge P config env st stored tabId url nowTs).state.lastFocusTimestamp
      = st.lastFocusTimestamp := by
  rw [instantNudge_state]
  split <;> rfl

theorem step_tracker (P : UrlParser) (config : Config) (w : World) (e : Occurrence)
    (hev : isTrackerEvent e = true) (hle : w.state.lastFocusTimestamp ≤ e.nowTs) :
    (step P config w e).state.lastFocusTimestamp = e.nowTs ∧
    ∃ app : List FocusRecord,
      (step P config w e).sessions.getD [] = w.sessions.getD [] ++ app ∧
      (∀ r ∈ app, 0 < r.durationMs) ∧
      (app.map (fun r => r.durationMs)).sum ≤ e.nowTs - w.state.lastFocusTimestamp := by
  obtain ⟨event, nowTs, env⟩ := e
  unfold isTrackerEvent at hev
  simp only [Bool.and_eq_true] at hev
  obtain ⟨⟨hr, hs⟩, hkind⟩ := hev
  dsimp only at hr hs hkind hle
  unfold step
  cases event with
  | activated tabId windowId =>
    dsimp only at hkind ⊢
    cases htab : env.tab with
    | rejected => rw [htab] at hkind; cases hkind
    | resolved tabUrl =>
      obtain ⟨stored2, app, hclose, happ, hpos, hsum⟩ :=
        closeOut_appends P config env (quickSwitch w.state tabId) w.sessions w.state.currentUrl
          nowTs hr hs (by rw [quickSwitch_lastFocusTimestamp]; exact hle)
      rw [onActivated_of_closeOut P config env w tabId windowId nowTs tabUrl stored2 htab hclose]
      rw [quickSwitch_lastFocusTimestamp] at hsum
      exact ⟨instantNudge_lastFocusTimestamp _ _ _ _ _ _ _ _,
        app, by rw [instantNudge_sessions]; exact happ, hpos, hsum⟩
  | updated tabId changeUrl active =>
    dsimp only at hkind ⊢
    simp only [Bool.and_eq_true] at hkind
    obtain ⟨stored2, app, hclose, happ, hpos, hsum⟩ :=
      closeOut_appends P config env w.state w.sessions w.state.currentUrl nowTs hr hs hle
    have hu : onUpdated P config env w tabId changeUrl active nowTs =
        instantNudge P config env
          { w.state with currentUrl := changeUrl, lastFocusTimestamp := nowTs }
          stored2 tabId changeUrl nowTs := by
      unfold onUpdated
      rw [if_pos hkind, hclose]
    rw [hu]
    exact ⟨instantNudge_lastFocusTimestamp _ _ _ _ _ _ _ _,
      app, by rw [instantNudge_sessions]; exact happ, hpos, hsum⟩
  | stateChanged newState =>
    dsimp only at hkind ⊢
    have hk : newState = "idle" ∨ newState = "locked" ∨ newState = "active" := by
      simpa using hkind
    by_cases hidle : newState = "idle" ∨ newState = "locked"
    · obtain ⟨stored2, app, hclose, happ, hpos, hsum⟩ :=
        closeOut_appends P config env w.state w.sessions w.state.currentUrl nowTs hr hs hle
      rw [onStateChanged_idle P config env w newState nowTs stored2 hidle hclose]
      exact ⟨rfl, app, happ, hpos, hsum⟩
    · have hact : newState = "active" := by
        rcases hk with h | h | h
        · exact absurd (Or.inl h) hidle
        · exact absurd (Or.inr h) hidle
        · exact h
      rw [hact, onStateChanged_active]
      refine ⟨rfl, [], by simp, ?_, ?_⟩
      · intro r hr2
        cases hr2
      · simp only [List.map_nil, List.sum_nil]
        omega
  | alarm name =>
    dsimp only at hkind
    cases hkind

theorem lastTimestamp_ge (es : List Occurrence) :
    ∀ t0 : Int, nonDecreasingFrom t0 es = true → t0 ≤ lastTimestamp t0 es := by
  induction es with
  | nil => intro t0 _; exact le_refl _
  | cons e es ih =>
    intro t0 h
    unfold nonDecreasingFrom at h
    simp only [Bool.and_eq_true, decide_eq_true_eq] at h
    exact le_trans h.1 (ih e.nowTs h.2)

theorem nonDecreasingFrom_take (es : List Occurrence) :
    ∀ (t0 : Int) (k : Nat), nonDecreasingFrom t0 es = true →
      nonDecreasingFrom t0 (es.take k) = true := by
  induction es with
  | nil => intro t0 k _; simp [nonDecreasingFrom]
  | cons e es ih =>
    intro t0 k h
    cases k with
    | zero => simp [nonDecreasingFrom]
    | succ k =>
      unfold nonDecreasingFrom at h
      simp only [Bool.and_eq_true, decide_eq_true_eq] at h
      rw [List.take_succ_cons]
      unfold nonDecreasingFrom
      simp only [Bool.and_eq_true, decide_eq_true_eq]
      exact ⟨h.1, ih e.nowTs k h.2⟩

theorem lastTimestamp_take_succ (es : List Occurrence) :
    ∀ (t0 : Int) (k : Nat) (hk : k < es.length),
      lastTimestamp t0 (es.take (k + 1)) = (es.get ⟨k, hk⟩).nowTs := by
  induction es with
  | nil => intro t0 k hk; cases hk
  | cons e es ih =>
    intro t0 k hk
    cases k with
    | zero => simp [lastTimestamp]
    | succ k =>
      rw [List.take_succ_cons]
      unfold lastTimestamp
      exact ih e.nowTs k (Nat.lt_of_succ_lt_succ hk)

theorem lastTimestamp_take_le (es : List Occurrence) :
    ∀ (t0 : Int) (k : Nat), nonDecreasingFrom t0 es = true →
      lastTimestamp t0 (es.take k) ≤ lastTimestamp t0 (es.take (k + 1)) := by
  induction es with
  | nil => intro t0 k _; simp [lastTimestamp]
  | cons e es ih =>
    intro t0 k h
    unfold nonDecreasingFrom at h
    simp only [Bool.and_eq_true, decide_eq_true_eq] at h
    cases k with
    | zero =>
      simp only [List.take_zero, List.take_succ_cons, lastTimestamp]
      exact h.1
    | succ k =>
      rw [List.take_succ_cons, List.take_succ_cons]
      unfold lastTimestamp
      exact ih e.nowTs k h.2

theorem run_tracker (P : UrlParser) (config : Config) (es : List Occurrence) :
    ∀ w : World, (∀ e ∈ es, isTrackerEvent e = true) →
      nonDecreasingFrom w.state.lastFocusTimestamp es = true →
      (run P config w es).1.state.lastFocusTimestamp
        = lastTimestamp w.state.lastFocusTimestamp es ∧
      ∃ app : List FocusRecord,
        (run P config w es).1.sessions.getD [] = w.sessions.getD [] ++ app ∧
        (∀ r ∈ app, 0 < r.durationMs) ∧
        (app.map (fun r => r.durationMs)).sum
          ≤ lastTimestamp w.state.lastFocusTimestamp es - w.state.lastFocusTimestamp := by
  induction es with
  | nil =>
    intro w _ _
    refine ⟨rfl, [], by simp [run], ?_, ?_⟩
    · intro r hr
      cases hr
    · simp [lastTimestamp]
  | cons e es ih =>
    intro w hev hmono
    unfold nonDecreasingFrom at hmono
    simp only [Bool.and_eq_true, decide_eq_true_eq] at hmono
    obtain ⟨hfocus, app1, happ1, hpos1, hsum1⟩ :=
      step_tracker P config w e (hev e (List.mem_cons_self e es)) hmono.1
    have hmono2 : nonDecreasingFrom (step P config w e).world.state.lastFocusTimestamp es
        = true := by
      show nonDecreasingFrom (step P config w e).state.lastFocusTimestamp es = true
      rw [hfocus]
      exact hmono.2
    obtain ⟨hlast, app2, happ2, hpos2, hsum2⟩ :=
      ih (step P config w e).world (fun x hx => hev x (List.mem_cons_of_mem e hx)) hmono2
    have hw : (step P config w e).world.state.lastFocusTimestamp = e.nowTs := hfocus
    rw [hw] at hlast hsum2
    have hrun : (run P config w (e :: es)).1 = (run P config (step P config w e).world es).1 :=
      rfl
    rw [hrun]
    refine ⟨hlast, app1 ++ app2, ?_, ?_, ?_⟩
    · rw [happ2]
      show (step P config w e).sessions.getD [] ++ app2 = _
      rw [happ1, List.append_assoc]
    · intro r hr
      rcases List.mem_append.1 hr with h | h
      · exact hpos1 r h
      · exact hpos2 r h
    · rw [List.map_append, List.sum_append]
      show _ ≤ lastTimestamp e.nowTs es - w.state.lastFocusTimestamp
      omega

/-- C14: for every sequence of tracker events (activation, navigation of the active tab,
idle/locked, active) handled one after the other with all storage calls succeeding and clock
readings that never decrease from the initial `lastFocusTimestamp`, the final log is the initial
log followed by the appended records, every appended record has a positive `durationMs`,
`lastFocusTimestamp` after each handled event is the clock reading of that event and so never
decreases, and the durations appended sum to at most the last clock reading minus the initial
`lastFocusTimestamp`. -/
theorem C14_no_double_counting (P : UrlParser) (config : Config) (w : World)
    (es : List Occurrence) (hev : ∀ e ∈ es, isTrackerEvent e = true)
    (hmono : nonDecreasingFrom w.state.lastFocusTimestamp es = true) :
    let final := (run P config w es).1
    let appended := (final.sessions.getD []).drop (w.sessions.getD []).length
    final.sessions.getD [] = w.sessions.getD [] ++ appended ∧
    (∀ r ∈ appended, 0 < r.durationMs) ∧
    final.state.lastFocusTimestamp = lastTimestamp w.state.lastFocusTimestamp es ∧
    (appended.map (fun r => r.durationMs)).sum
      ≤ lastTimestamp w.state.lastFocusTimestamp es - w.state.lastFocusTimestamp ∧
    (∀ (k : Nat) (hk : k < es.length),
      (run P config w (es.take (k + 1))).1.state.lastFocusTimestamp
        = (es.get ⟨k, hk⟩).nowTs) ∧
    (∀ k : Nat,
      (run P config w (es.take k)).1.state.lastFocusTimestamp
        ≤ (run P config w (es.take (k + 1))).1.state.lastFocusTimestamp) := by
  intro final appended
  obtain ⟨hlast, app, happ, hpos, hsum⟩ := run_tracker P config es w hev hmono
  have hdrop : appended = app := by
    show ((run P config w es).1.sessions.getD []).drop (w.sessions.getD []).length = app
    rw [happ, List.drop_left]
  have htake : ∀ k : Nat,
      (run P config w (es.take k)).1.state.lastFocusTimestamp
        = lastTimestamp w.state.lastFocusTimestamp (es.take k) := fun k =>
    (run_tracker P config (es.take k) w (fun e he => hev e (List.mem_of_mem_take he))
      (nonDecreasingFrom_take es _ k hmono)).1
  refine ⟨?_, ?_, hlast, ?_, ?_, ?_⟩
  · rw [hdrop]
    exact happ
  · rw [hdrop]
    exact hpos
  · rw [hdrop]
    exact hsum
  · intro k hk
    rw [htake (k + 1)]
    exact lastTimestamp_take_succ es _ k hk
  · intro k
    rw [htake k, htake (k + 1)]
    exact lastTimestamp_take_le es _ k hmono

/-- Witness of C14 on `sampleSession` started from Scenario A's state: the four events append
records of 10000, 15000 and 5000 ms, 30000 ms in all for 95000 ms of elapsed time, the 65000 ms
spent idle being left out. -/
theorem C14_no_double_counting_witness :
    (∀ e ∈ sampleSession, isTrackerEvent e = true) ∧
    nonDecreasingFrom scenarioWorld.state.lastFocusTimestamp sampleSession = true ∧
    (run sampleParser scenarioConfig scenarioWorld sampleSession).1.state.lastFocusTimestamp
      = 95000 ∧
    (run sampleParser scenarioConfig scenarioWorld sampleSession).1.sessions
      = some [⟨10000, 10000, true⟩, ⟨10000, 15000, false⟩, ⟨10000, 5000, false⟩] :=
  ⟨by decide, by decide,
    (C14_no_double_counting sampleParser scenarioConfig scenarioWorld sampleSession
      (by decide) (by decide)).2.2.1.trans (by decide),
    by decide⟩

end FocusPilot
